import Mathlib

/-!
Reservation slot allocation and WhatsApp notification dispatch.

A shallow embedding of the booking handler of `backend/server.js`
(`app.post('/api/reservations')`) and of `backend/whatsapp.js`: phone normalization, the
outbound sends, webhook signature verification and intent detection.

Conventions of the embedding:

* a request-body field is a `JsVal`; the coercions `String(x || '')`, `Number(x || d)` and
  `Boolean(x)` follow ECMAScript, an array or object being represented by the outcome of its
  conversion to a primitive;
* what the JavaScript runtime and PostgreSQL compute outside the repository (string to number,
  number to string, lower-casing, `timestamptz` input, URI encoding) is a field of `Env`, and
  the keyed digest of the module `crypto` is the field of `Crypto`;
* a string is a sequence of Unicode scalar values; a JavaScript string with an unpaired
  surrogate has no literal of its own, and the functions of the program treat such a code
  unit as any character that is neither white space nor a digit, with one exception:
  `encodeURIComponent` throws `URIError` on it, so `Env.encodeURIComponent` is partial and
  the environment tells on which strings it throws;
* the `reservations` table is a list of rows with a serial id; a statement fails only for the
  data it is given (a value that is no integer or no timestamp, a duplicate key of the unique
  index `reservations_table_slot_idx`), and the server accepts every text value it is sent;
* the effects of a handler run are returned as a trace of `Event`s, in program order.
-/

namespace Rahman

/-! ## JavaScript values -/

/-- A JavaScript number: `NaN`, a finite value (every double is a rational) or an infinity. -/
inductive JsNum
  | nan
  | fin (q : ℚ)
  | posInf
  | negInf
  deriving DecidableEq

namespace JsNum

/-- The operator `a < b` on numbers: every comparison with `NaN` is false. -/
def lt : JsNum → JsNum → Bool
  | nan, _ => false
  | _, nan => false
  | fin a, fin b => decide (a < b)
  | fin _, posInf => true
  | fin _, negInf => false
  | posInf, _ => false
  | negInf, negInf => false
  | negInf, _ => true

/-- The operator `a > b` on numbers. -/
def gt (a b : JsNum) : Bool := lt b a

/-- Truthiness of a number: `0`, `-0` and `NaN` are falsy. -/
def truthy : JsNum → Bool
  | nan => false
  | fin q => decide (q ≠ 0)
  | _ => true

end JsNum

/-- A value found in a parsed JSON body. `undefined` stands for an absent property. An array
or object is `obj prim`, where `prim` is the string its conversion to a primitive yields
(`Array.prototype.toString`, `Object.prototype.toString`), or `none` when that conversion
throws a `TypeError` (an own, non-callable `toString` property). -/
inductive JsVal
  | undefined
  | null
  | bool (b : Bool)
  | num (n : JsNum)
  | str (s : String)
  | obj (prim : Option String)
  deriving DecidableEq

/-- What the runtime and the database server compute outside this repository. -/
structure Env where
  /-- The ECMAScript conversion `StringToNumber`, used by `Number(s)` on a string. -/
  strToNum : String → JsNum
  /-- The ECMAScript conversion `Number::toString`, used by `String(n)` and by templates. -/
  numToStr : JsNum → String
  /-- The method `String.prototype.toLowerCase`. -/
  toLowerCase : String → String
  /-- The input conversion of PostgreSQL for `$n::timestamptz`: the instant a text denotes,
  or `none` when the server rejects the text. -/
  parseTimestamp : String → Option Int
  /-- The global function `encodeURIComponent`; `none` when it throws `URIError`, which it
  does on a string with an unpaired surrogate. -/
  encodeURIComponent : String → Option String

namespace JsVal

/-- Truthiness, as tested by `x || d`, `!x` and `Boolean(x)`. -/
def truthy : JsVal → Bool
  | undefined => false
  | null => false
  | bool b => b
  | num n => n.truthy
  | str s => decide (s ≠ "")
  | obj _ => true

/-- A destructuring default `{ x = d }`: it applies to an absent property only. -/
def withDefault (v d : JsVal) : JsVal :=
  match v with
  | undefined => d
  | _ => v

/-- The operator `v || d`. -/
def orElse (v d : JsVal) : JsVal :=
  if v.truthy then v else d

/-- The call `String(v)`; `none` when it throws a `TypeError`. -/
def toStr (env : Env) : JsVal → Option String
  | undefined => some "undefined"
  | null => some "null"
  | bool true => some "true"
  | bool false => some "false"
  | num n => some (env.numToStr n)
  | str s => some s
  | obj prim => prim

/-- The call `Number(v)`; `none` when it throws a `TypeError`. -/
def toNum (env : Env) : JsVal → Option JsNum
  | undefined => some JsNum.nan
  | null => some (JsNum.fin 0)
  | bool true => some (JsNum.fin 1)
  | bool false => some (JsNum.fin 0)
  | num n => some n
  | str s => some (env.strToNum s)
  | obj prim => prim.map env.strToNum

end JsVal

/-! ## Strings -/

/-- The characters removed by `String.prototype.trim`: ECMAScript white space and line
terminators. -/
def isJsWhiteSpace (c : Char) : Bool :=
  let n := c.toNat
  n == 0x09 || n == 0x0A || n == 0x0B || n == 0x0C || n == 0x0D || n == 0x20 || n == 0xA0
    || n == 0x1680 || (0x2000 ≤ n && n ≤ 0x200A) || n == 0x2028 || n == 0x2029
    || n == 0x202F || n == 0x205F || n == 0x3000 || n == 0xFEFF

/-- The method `String.prototype.trim`. -/
def jsTrim (s : String) : String :=
  String.mk ((s.data.dropWhile isJsWhiteSpace).rdropWhile isJsWhiteSpace)

/-- The class `\d` of a regular expression without the `u` flag: `0` to `9`. -/
def isAsciiDigit (c : Char) : Bool :=
  decide ('0' ≤ c ∧ c ≤ '9')

/-- The call `s.replace(/\D/g, '')`: the digit characters of `s`, in order. -/
def stripNonDigits (s : String) : String :=
  String.mk (s.data.filter isAsciiDigit)

/-! ## `backend/whatsapp.js` -/

/-- The function `normalizePhoneNumber(phone, defaultCountryCode)` on a string `phone`; the
second parameter, `'91'` by default, is passed explicitly where the source omits it. -/
def normalizePhoneNumber (phone : String) (defaultCountryCode : String) : String :=
  let raw := jsTrim phone
  if raw = "" then ""
  else if raw.data.head? = some '+' then "+" ++ stripNonDigits raw
  else
    let digits := stripNonDigits raw
    if digits = "" then ""
    else if digits.length = 10 then "+" ++ defaultCountryCode ++ digits
    else "+" ++ digits

/-- The function `toMetaWaId(phone)`. -/
def toMetaWaId (phone : String) : String :=
  stripNonDigits (normalizePhoneNumber phone "91")

/-- The object `payload` the booking handler builds from the request body, which is also the
`reservation` argument of the notification methods. -/
structure Payload where
  name : String
  email : String
  phone : String
  dateTime : String
  guests : JsNum
  tableNumber : JsNum
  whatsappOptIn : Bool
  deriving DecidableEq

/-- The function `buildReservationText(reservation)`. -/
def buildReservationText (env : Env) (reservation : Payload) : String :=
  "New reservation: Table " ++ env.numToStr reservation.tableNumber ++ " for "
    ++ reservation.name ++ " at " ++ reservation.dateTime ++ ". Guests: "
    ++ env.numToStr reservation.guests ++ ", Phone: " ++ reservation.phone

/-- The field `config` of a `WhatsAppService`. -/
structure Config where
  provider : String
  adminNumber : String
  defaultCountryCode : String
  metaAccessToken : String
  metaPhoneNumberId : String
  metaApiVersion : String
  metaVerifyToken : String
  metaAppSecret : String
  twilioAccountSid : String
  twilioAuthToken : String
  twilioWhatsAppFrom : String
  reservationTemplateName : String
  openAiApiKey : String
  openAiModel : String

/-- The expression `s || d` on strings. -/
def strOr (s d : String) : String :=
  if s = "" then d else s

/-- The constructor of `WhatsAppService`, applied to a configuration object whose properties
are strings (the server passes environment strings). -/
def createWhatsAppService (env : Env) (config : Config) : Config where
  provider := env.toLowerCase (strOr config.provider "none")
  adminNumber := normalizePhoneNumber config.adminNumber "91"
  defaultCountryCode := strOr config.defaultCountryCode "91"
  metaAccessToken := config.metaAccessToken
  metaPhoneNumberId := config.metaPhoneNumberId
  metaApiVersion := strOr config.metaApiVersion "v20.0"
  metaVerifyToken := config.metaVerifyToken
  metaAppSecret := config.metaAppSecret
  twilioAccountSid := config.twilioAccountSid
  twilioAuthToken := config.twilioAuthToken
  twilioWhatsAppFrom := config.twilioWhatsAppFrom
  reservationTemplateName := config.reservationTemplateName
  openAiApiKey := config.openAiApiKey
  openAiModel := strOr config.openAiModel "gpt-4o-mini"

/-- One entry of the delivery status: `{sent: true, provider, recipient, messageId}` or
`{sent: false, reason, detail?, recipient?}`. -/
inductive DeliveryStatus
  | sent (provider recipient messageId : String)
  | notSent (reason : String) (detail : Option String) (recipient : Option String)
  deriving DecidableEq

/-- What a provider call (`postJson`, `postForm`) does when it is made: it returns the parsed
response, of which the callers keep the message id (`data?.messages?.[0]?.id || ''`,
`data?.sid || ''`), or it throws an `Error` carrying a message. -/
inductive NetResult
  | ok (messageId : String)
  | throws (message : String)
  deriving DecidableEq

/-- The three requests the service sends to a provider. -/
inductive Wire
  | metaText
  | metaTemplate
  | twilioForm
  deriving DecidableEq

/-- An effect of a handler run, recorded in program order. -/
inductive Event
  /-- The conflict lookup `SELECT id FROM reservations WHERE table_number = $1 AND
  date_time = $2::timestamptz` was issued. -/
  | lookup (tableNumber : JsNum) (dateTime : String)
  /-- A request was sent to the WhatsApp provider for a recipient. -/
  | post (wire : Wire) (recipient : String) (content : String)
  /-- The statement `INSERT INTO reservations ...` was issued. -/
  | insert (payload : Payload)
  /-- The insert stored a row under this id. -/
  | inserted (id : Nat)
  deriving DecidableEq

/-- The result of an asynchronous service method: the value it resolves to or the message of
the error it throws, with the provider requests it made. -/
structure Sent where
  result : Except String DeliveryStatus
  trace : List Event

namespace WhatsAppService

/-- The method `isEnabled()`. -/
def isEnabled (cfg : Config) : Bool :=
  decide (cfg.provider = "meta") || decide (cfg.provider = "twilio")

/-- The method `sendText(to, text)` (the parameter `to` is named `recipient`); `net` is what the provider call does if it is made. -/
def sendText (cfg : Config) (net : NetResult) (recipient text : String) : Sent :=
  let normalized := normalizePhoneNumber recipient cfg.defaultCountryCode
  if normalized = "" then
    ⟨.ok (.notSent "missing-recipient" none none), []⟩
  else if !isEnabled cfg then
    ⟨.ok (.notSent "provider-disabled" none (some normalized)), []⟩
  else if cfg.provider = "meta" then
    let call := Event.post Wire.metaText (toMetaWaId normalized) text
    match net with
    | .ok messageId => ⟨.ok (.sent "meta" normalized messageId), [call]⟩
    | .throws message => ⟨.error message, [call]⟩
  else
    let call := Event.post Wire.twilioForm ("whatsapp:" ++ normalized) text
    match net with
    | .ok messageId => ⟨.ok (.sent "twilio" normalized messageId), [call]⟩
    | .throws message => ⟨.error message, [call]⟩

/-- The method `sendTemplate(to, templateName, bodyVariables)`; the content recorded for the
request is the template name followed by its variables. -/
def sendTemplate (cfg : Config) (net : NetResult) (recipient templateName : String)
    (bodyVariables : List String) : Sent :=
  let normalized := normalizePhoneNumber recipient cfg.defaultCountryCode
  if normalized = "" then
    ⟨.ok (.notSent "missing-recipient" none none), []⟩
  else if cfg.provider ≠ "meta" then
    ⟨.ok (.notSent "template-only-supported-on-meta" none none), []⟩
  else
    let call := Event.post Wire.metaTemplate (toMetaWaId normalized)
      (String.intercalate "|" (templateName :: bodyVariables))
    match net with
    | .ok messageId => ⟨.ok (.sent "meta" normalized messageId), [call]⟩
    | .throws message => ⟨.error message, [call]⟩

/-- The method `sendReservationNotification(reservation)`. -/
def sendReservationNotification (env : Env) (cfg : Config) (net : NetResult)
    (reservation : Payload) : Sent :=
  if cfg.adminNumber = "" then
    ⟨.ok (.notSent "missing-admin-number" none none), []⟩
  else
    sendText cfg net cfg.adminNumber (buildReservationText env reservation)

/-- The method `sendReservationConfirmation(reservation)`. -/
def sendReservationConfirmation (env : Env) (cfg : Config) (net : NetResult)
    (reservation : Payload) : Sent :=
  if !reservation.whatsappOptIn then
    ⟨.ok (.notSent "customer-not-opted-in" none none), []⟩
  else
    let target := normalizePhoneNumber reservation.phone cfg.defaultCountryCode
    if target = "" then
      ⟨.ok (.notSent "invalid-customer-phone" none none), []⟩
    else if cfg.provider = "meta" ∧ cfg.reservationTemplateName ≠ "" then
      let attempt := sendTemplate cfg net target cfg.reservationTemplateName
        [reservation.name, env.numToStr reservation.tableNumber, reservation.dateTime,
          env.numToStr reservation.guests]
      match attempt.result with
      | .ok status => ⟨.ok status, attempt.trace⟩
      | .error message =>
        ⟨.ok (.notSent "template-send-failed" (some message) none), attempt.trace⟩
    else
      sendText cfg net target
        ("Hi " ++ reservation.name
          ++ ", your reservation is confirmed at RAHMAN Restaurant. Table "
          ++ env.numToStr reservation.tableNumber ++ ", " ++ reservation.dateTime
          ++ ", Guests: " ++ env.numToStr reservation.guests
          ++ ". Reply HELP for support.")

end WhatsAppService

/-! ## `backend/server.js`: the store -/

/-- Both entries of `notificationStatus`, stored in the column `whatsapp_delivery` and
returned as `whatsappDelivery`. -/
structure NotificationStatus where
  admin : DeliveryStatus
  customer : DeliveryStatus
  deriving DecidableEq

/-- A row of the table `reservations`; `dateTime` is the instant stored in the `timestamptz`
column. The column `created_at` (the clock of the server) is left out. -/
structure Reservation where
  id : Nat
  userId : Option String
  userEmail : Option String
  name : String
  email : String
  phone : String
  dateTime : Int
  guests : Int
  tableNumber : Int
  whatsappOptIn : Bool
  whatsappDelivery : NotificationStatus
  status : String
  deriving DecidableEq

/-- The table `reservations` with the sequence behind its `BIGSERIAL` id. -/
structure Db where
  rows : List Reservation
  nextId : Nat

/-- The key of the unique index `reservations_table_slot_idx ON reservations (table_number,
date_time)`. -/
def Reservation.slotKey (r : Reservation) : Int × Int :=
  (r.tableNumber, r.dateTime)

/-- The conversion of a number parameter bound to an `INTEGER` column: the driver sends the
decimal text of the number and the server accepts it when it denotes a 32-bit integer. -/
def pgInt4 : JsNum → Option Int
  | JsNum.fin q =>
    if q.den = 1 ∧ -2147483648 ≤ q.num ∧ q.num ≤ 2147483647 then some q.num else none
  | _ => none

/-- An error thrown inside the `try` block of the booking handler; the `catch` block returns
its message as `detail`. -/
inductive Thrown
  /-- A field of the body cannot be converted to a primitive. -/
  | typeError
  /-- The server rejects a parameter bound to an `INTEGER` column. -/
  | pgInvalidInteger
  /-- The server rejects a parameter cast to `timestamptz`. -/
  | pgInvalidTimestamp
  /-- The insert violates the unique index `reservations_table_slot_idx`. -/
  | pgUniqueViolation
  /-- The function `encodeURIComponent` rejects its argument. -/
  | uriError
  deriving DecidableEq

/-- The query `SELECT id FROM reservations WHERE table_number = $1 AND date_time =
$2::timestamptz LIMIT 1` through `getSql`: a matching row, `null`, or an error. -/
def selectBySlot (env : Env) (db : Db) (tableNumber : JsNum) (dateTime : String) :
    Except Thrown (Option Reservation) :=
  match pgInt4 tableNumber with
  | none => .error Thrown.pgInvalidInteger
  | some t =>
    match env.parseTimestamp dateTime with
    | none => .error Thrown.pgInvalidTimestamp
    | some ts => .ok (db.rows.find? (fun r => decide (r.slotKey = (t, ts))))

/-- The query `SELECT ... FROM reservations WHERE id = $1` through `getSql`. -/
def selectById (db : Db) (id : Nat) : Option Reservation :=
  db.rows.find? (fun r => decide (r.id = id))

/-- The identity attached to a request by a valid bearer token (`getOptionalAuth`). -/
structure Auth where
  id : String
  email : String

/-- The expression `auth?.id || null` (and likewise for `email`). -/
def authField (auth : Option Auth) (field : Auth → String) : Option String :=
  match auth with
  | none => none
  | some a => if field a = "" then none else some (field a)

/-- The statement `INSERT INTO reservations (...) VALUES (...) RETURNING id` through
`runSql`: parameters are converted first; a duplicate (table_number, date_time) violates the
unique index after the sequence has advanced; otherwise the row is stored and its id
returned. -/
def insertReservation (env : Env) (db : Db) (auth : Option Auth) (payload : Payload)
    (delivery : NotificationStatus) : Except Thrown Nat × Db :=
  match env.parseTimestamp payload.dateTime with
  | none => (.error Thrown.pgInvalidTimestamp, db)
  | some ts =>
    match pgInt4 payload.guests, pgInt4 payload.tableNumber with
    | some g, some t =>
      if db.rows.any (fun r => decide (r.slotKey = (t, ts))) then
        (.error Thrown.pgUniqueViolation, { db with nextId := db.nextId + 1 })
      else
        let row : Reservation :=
          { id := db.nextId
            userId := authField auth Auth.id
            userEmail := authField auth Auth.email
            name := payload.name
            email := payload.email
            phone := payload.phone
            dateTime := ts
            guests := g
            tableNumber := t
            whatsappOptIn := payload.whatsappOptIn
            whatsappDelivery := delivery
            status := "booked" }
        (.ok db.nextId, { rows := db.rows ++ [row], nextId := db.nextId + 1 })
    | _, _ => (.error Thrown.pgInvalidInteger, db)

/-! ## `backend/server.js`: `app.post('/api/reservations')` -/

/-- The properties of `req.body || \x7b\x7d` the handler destructures; an absent property or
an absent body gives `undefined`. -/
structure Body where
  name : JsVal
  email : JsVal
  phone : JsVal
  dateTime : JsVal
  guests : JsVal
  tableNumber : JsVal
  whatsappOptIn : JsVal

/-- What the booking handler reads of a request. -/
structure Request where
  body : Body
  auth : Option Auth

/-- The JSON body of a response: `\x7bmessage, detail?\x7d` or the body of a `201`. -/
inductive ResBody
  | message (message : String) (detail : Option Thrown)
  | created (reservation : Option Reservation) (whatsappLink : String)
      (whatsappDelivery : NotificationStatus) (providerHint : String)
  deriving DecidableEq

/-- A response `res.status(status).json(body)`. -/
structure Response where
  status : Nat
  body : ResBody
  deriving DecidableEq

/-- The server constants the handler reads: the service built at start-up and
`RESERVATION_WHATSAPP_NUMBER`. -/
structure Server where
  whatsapp : Config
  reservationWhatsAppNumber : String

/-- What the provider does for each of the two notifications, if the call is made. -/
structure NetOutcomes where
  admin : NetResult
  customer : NetResult

/-- The function `normalizeEmail(email)`; `none` when `String` throws. -/
def normalizeEmail (env : Env) (email : JsVal) : Option String :=
  ((email.orElse (JsVal.str "")).toStr env).map (fun s => env.toLowerCase (jsTrim s))

/-- The function `logApiFailure(req, scope, detail, extra)`: it only logs, and it throws a
`TypeError` when `req.body.email` cannot be converted to a string (`false`). -/
def logApiFailure (env : Env) (req : Request) : Bool :=
  (normalizeEmail env (req.body.email.orElse (JsVal.str ""))).isSome

/-- The expression `String(v || '').trim()` for a destructured property with default `''`. -/
def trimmedField (env : Env) (v : JsVal) : Option String :=
  (((v.withDefault (JsVal.str "")).orElse (JsVal.str "")).toStr env).map jsTrim

/-- The expression `Number(v || d)` for a destructured property with default `d`. -/
def numberField (env : Env) (v : JsVal) (d : ℚ) : Option JsNum :=
  ((v.withDefault (JsVal.num (JsNum.fin d))).orElse (JsVal.num (JsNum.fin d))).toNum env

/-- The object `payload` (lines 1295 to 1313); `none` when a conversion throws. -/
def buildPayload (env : Env) (body : Body) : Option Payload :=
  match trimmedField env body.name,
    normalizeEmail env (body.email.withDefault (JsVal.str "")),
    trimmedField env body.phone,
    trimmedField env body.dateTime,
    numberField env body.guests 1,
    numberField env body.tableNumber 0 with
  | some name, some email, some phone, some dateTime, some guests, some tableNumber =>
    some
      { name := name
        email := email
        phone := phone
        dateTime := dateTime
        guests := guests
        tableNumber := tableNumber
        whatsappOptIn := (body.whatsappOptIn.withDefault (JsVal.bool false)).truthy }
  | _, _, _, _, _, _ => none

/-- How a stage of the handler ends: it goes on with a value, it returns a response, or it
throws into the `catch` block. -/
inductive Flow (α : Type)
  | next (a : α)
  | respond (r : Response)
  | throw (e : Thrown)
  deriving DecidableEq

/-- A failure branch inside the `try` block: `logApiFailure(...)` followed by
`return res.status(status).json(\x7b message \x7d)`. -/
def logged (env : Env) (req : Request) (status : Nat) (message : String) : Flow Payload :=
  if logApiFailure env req then .respond ⟨status, .message message none⟩
  else .throw Thrown.typeError

/-- The three validation checks (lines 1315 to 1332) on a built payload. -/
def validate (env : Env) (req : Request) (payload : Payload) : Flow Payload :=
  if payload.name = "" ∨ payload.email = "" ∨ payload.phone = "" ∨ payload.dateTime = "" then
    logged env req 400 "All reservation fields are required."
  else if payload.guests.lt (JsNum.fin 1) || payload.guests.gt (JsNum.fin 10) then
    logged env req 400 "Guests must be between 1 and 10."
  else if payload.tableNumber.lt (JsNum.fin 1) || payload.tableNumber.gt (JsNum.fin 50) then
    logged env req 400 "Table number must be between 1 and 50."
  else .next payload

/-- Lines 1294 to 1345: payload, validation and conflict lookup. -/
def lookupStage (env : Env) (db : Db) (req : Request) : Flow Payload × List Event :=
  match buildPayload env req.body with
  | none => (.throw Thrown.typeError, [])
  | some payload =>
    match validate env req payload with
    | .next _ =>
      let tr := [Event.lookup payload.tableNumber payload.dateTime]
      match selectBySlot env db payload.tableNumber payload.dateTime with
      | .error e => (.throw e, tr)
      | .ok (some _) => (logged env req 409 "Table is already reserved for this slot.", tr)
      | .ok none => (.next payload, tr)
    | flow => (flow, [])

/-- The `catch` clause of a notification: a thrown error becomes a `send-failed` entry. -/
def recoverSend (sent : Sent) : DeliveryStatus :=
  match sent.result with
  | .ok status => status
  | .error message => .notSent "send-failed" (some message) none

/-- Lines 1347 to 1376: both notifications, each in its own `try`. -/
def notifyStage (env : Env) (cfg : Config) (net : NetOutcomes) (payload : Payload) :
    NotificationStatus × List Event :=
  if WhatsAppService.isEnabled cfg then
    let admin := WhatsAppService.sendReservationNotification env cfg net.admin payload
    let customer := WhatsAppService.sendReservationConfirmation env cfg net.customer payload
    (⟨recoverSend admin, recoverSend customer⟩, admin.trace ++ customer.trace)
  else
    (⟨.notSent "not-attempted" none none, .notSent "not-attempted" none none⟩, [])

/-- The function `getReservationWhatsAppMessage(data)`. -/
def getReservationWhatsAppMessage (env : Env) (data : Payload) : String :=
  "New reservation: Table " ++ env.numToStr data.tableNumber ++ " by " ++ data.name ++ " at "
    ++ data.dateTime ++ ". Guests: " ++ env.numToStr data.guests ++ ", Phone: " ++ data.phone

/-- The function `getReservationWhatsAppLink(data)`; `none` when `encodeURIComponent`
throws. -/
def getReservationWhatsAppLink (env : Env) (srv : Server) (data : Payload) : Option String :=
  (env.encodeURIComponent (getReservationWhatsAppMessage env data)).map
    (fun encoded => "https://wa.me/" ++ srv.reservationWhatsAppNumber ++ "?text=" ++ encoded)

/-- The outcome of a handler run: the response sent (`none` when the handler ends with an
error thrown out of its `catch` block), the store afterwards and the effects. -/
structure Outcome where
  response : Option Response
  db : Db
  trace : List Event

/-- The `catch` block (lines 1445 to 1451). -/
def catchBlock (env : Env) (req : Request) (e : Thrown) : Option Response :=
  if logApiFailure env req then
    some ⟨500, .message "Failed to create reservation" (some e)⟩
  else none

/-- Lines 1347 to 1451 for a request whose lookup found no reservation: notifications, insert,
read-back, link and the `201` response, or the `catch` block when the insert throws or when,
after the insert, `getReservationWhatsAppLink` throws. -/
def completeStage (env : Env) (srv : Server) (net : NetOutcomes) (db : Db) (req : Request)
    (payload : Payload) : Outcome :=
  let notified := notifyStage env srv.whatsapp net payload
  let stored := insertReservation env db req.auth payload notified.1
  match stored.1 with
  | .error e => ⟨catchBlock env req e, stored.2, notified.2 ++ [Event.insert payload]⟩
  | .ok id =>
    let reservation := selectById stored.2 id
    match getReservationWhatsAppLink env srv payload with
    | none =>
      ⟨catchBlock env req Thrown.uriError, stored.2,
        notified.2 ++ [Event.insert payload, Event.inserted id]⟩
    | some whatsappLink =>
      ⟨some ⟨201, .created reservation whatsappLink notified.1
          (if WhatsAppService.isEnabled srv.whatsapp then ""
           else "Set WHATSAPP_PROVIDER=meta or twilio in .env to enable automated sends.")⟩,
        stored.2, notified.2 ++ [Event.insert payload, Event.inserted id]⟩

/-- The handler `app.post('/api/reservations')`, run without interruption on store `db`. -/
def postReservations (env : Env) (srv : Server) (net : NetOutcomes) (db : Db)
    (req : Request) : Outcome :=
  match lookupStage env db req with
  | (.next payload, tr) =>
    let done := completeStage env srv net db req payload
    ⟨done.response, done.db, tr ++ done.trace⟩
  | (.respond r, tr) => ⟨some r, db, tr⟩
  | (.throw e, tr) => ⟨catchBlock env req e, db, tr⟩

/-! ## Requests one after another, and requests in flight together -/

/-- The store after the handler has served the requests of a list one after another, each
with its own provider outcomes. -/
def serveAll (env : Env) (srv : Server) (db : Db) (requests : List (Request × NetOutcomes)) :
    Db :=
  requests.foldl (fun d rn => (postReservations env srv rn.2 d rn.1).db) db

/-- No two rows of the store share a (table number, slot) pair. -/
def NoDoubleBooking (db : Db) : Prop :=
  (db.rows.map Reservation.slotKey).Nodup

/-- A request being handled. The handler suspends at each `await`; the store is read by the
conflict lookup and written by the insert, so a request is either before its lookup, between
its lookup and its insert, or finished. -/
inductive InFlight
  | arrived (req : Request) (net : NetOutcomes)
  | lookedUp (req : Request) (net : NetOutcomes) (payload : Payload)
  | finished (response : Option Response)

/-- One atomic step of a request on the current store: the part of the handler up to and
including the lookup, or the part from the notifications to the response. -/
def advance (env : Env) (srv : Server) (db : Db) : InFlight → InFlight × Db × List Event
  | .arrived req net =>
    match lookupStage env db req with
    | (.next payload, tr) => (.lookedUp req net payload, db, tr)
    | (.respond r, tr) => (.finished (some r), db, tr)
    | (.throw e, tr) => (.finished (catchBlock env req e), db, tr)
  | .lookedUp req net payload =>
    let done := completeStage env srv net db req payload
    (.finished done.response, done.db, done.trace)
  | .finished response => (.finished response, db, [])

/-- The server with its requests in flight. -/
structure System where
  db : Db
  requests : List InFlight
  trace : List Event

/-- The scheduler lets request number `i` take its next step. -/
def System.step (env : Env) (srv : Server) (s : System) (i : Nat) : System :=
  match s.requests.get? i with
  | none => s
  | some r =>
    let next := advance env srv s.db r
    ⟨next.2.1, s.requests.set i next.1, s.trace ++ next.2.2⟩

/-- An interleaving: the requests take steps in the order of the schedule. -/
def System.run (env : Env) (srv : Server) (s : System) (schedule : List Nat) : System :=
  schedule.foldl (System.step env srv) s

/-- The status codes of the requests of a system, `none` for one without a response yet. -/
def System.statuses (s : System) : List (Option Nat) :=
  s.requests.map fun r =>
    match r with
    | .finished (some response) => some response.status
    | _ => none

/-! ## A sample environment for concrete runs -/

/-- The value of a string of decimal digits. -/
def decimalValue (digits : List Char) : Nat :=
  digits.foldl (fun acc c => 10 * acc + (c.toNat - '0'.toNat)) 0

/-- A sample of `StringToNumber`: exact on the empty string and on unsigned decimal integer
literals surrounded by white space, `NaN` on every other string. -/
def sampleStrToNum (s : String) : JsNum :=
  let t := (jsTrim s).data
  if t.all isAsciiDigit then JsNum.fin (decimalValue t) else JsNum.nan

/-- A sample of `Number::toString`: exact on `NaN`, the infinities and the integers. -/
def sampleNumToStr : JsNum → String
  | JsNum.nan => "NaN"
  | JsNum.posInf => "Infinity"
  | JsNum.negInf => "-Infinity"
  | JsNum.fin q => if q.den = 1 then toString q.num else toString q.num ++ "/" ++ toString q.den

/-- A sample of the `timestamptz` input: a text `YYYY-MM-DDTHH:MM` is accepted and denotes
the instant numbered by its twelve digits; every other text is rejected. -/
def sampleParseTimestamp (s : String) : Option Int :=
  let cs := s.data
  if cs.length = 16 ∧ cs.get? 4 = some '-' ∧ cs.get? 7 = some '-' ∧ cs.get? 10 = some 'T'
      ∧ cs.get? 13 = some ':' ∧ (cs.filter isAsciiDigit).length = 12 then
    some (decimalValue (cs.filter isAsciiDigit))
  else none

/-- A sample of `toLowerCase`: exact on ASCII strings. -/
def sampleToLowerCase (s : String) : String :=
  String.mk (s.data.map Char.toLower)

/-- A sample of `encodeURIComponent`: exact on strings of ASCII letters and digits, which it
leaves as they are. -/
def sampleEncodeURIComponent (s : String) : Option String :=
  some s

/-- A sample environment: each field agrees with the runtime on the inputs named where the
field is defined. -/
def sampleEnv : Env where
  strToNum := sampleStrToNum
  numToStr := sampleNumToStr
  toLowerCase := sampleToLowerCase
  parseTimestamp := sampleParseTimestamp
  encodeURIComponent := sampleEncodeURIComponent

/-- A service configuration with every field empty and the given provider and admin number. -/
def sampleConfig (provider adminNumber : String) : Config where
  provider := provider
  adminNumber := adminNumber
  defaultCountryCode := "91"
  metaAccessToken := ""
  metaPhoneNumberId := ""
  metaApiVersion := "v20.0"
  metaVerifyToken := ""
  metaAppSecret := ""
  twilioAccountSid := ""
  twilioAuthToken := ""
  twilioWhatsAppFrom := ""
  reservationTemplateName := ""
  openAiApiKey := ""
  openAiModel := "gpt-4o-mini"

/-- A server whose service has the given provider and admin number. -/
def sampleServer (provider adminNumber : String) : Server where
  whatsapp := sampleConfig provider adminNumber
  reservationWhatsAppNumber := "7858062571"

/-- A booking body with the given guests and table number for the slot `2025-06-01T19:00`. -/
def sampleBody (guests tableNumber : JsVal) : Body where
  name := JsVal.str "Asha"
  email := JsVal.str "asha@example.com"
  phone := JsVal.str "9876543210"
  dateTime := JsVal.str "2025-06-01T19:00"
  guests := guests
  tableNumber := tableNumber
  whatsappOptIn := JsVal.bool true

/-- The request of the scenario: table 12, slot `2025-06-01T19:00`, four guests. -/
def sampleRequest : Request where
  body := sampleBody (JsVal.num (JsNum.fin 4)) (JsVal.num (JsNum.fin 12))
  auth := none

/-- Provider outcomes in which both calls succeed. -/
def bothDelivered : NetOutcomes where
  admin := NetResult.ok "wamid.1"
  customer := NetResult.ok "wamid.2"

/-- The empty store. -/
def emptyDb : Db where
  rows := []
  nextId := 1

/-- The row stored for the scenario request. -/
def bookedRow : Reservation where
  id := 1
  userId := none
  userEmail := none
  name := "Asha"
  email := "asha@example.com"
  phone := "9876543210"
  dateTime := 202506011900
  guests := 4
  tableNumber := 12
  whatsappOptIn := true
  whatsappDelivery :=
    ⟨.sent "meta" "+917858062571" "wamid.1", .sent "meta" "+919876543210" "wamid.2"⟩
  status := "booked"

/-- The store after the scenario request has been booked on the empty store. -/
def bookedDb : Db where
  rows := [bookedRow]
  nextId := 2

/-- The payload built from the scenario request. -/
def samplePayload : Payload where
  name := "Asha"
  email := "asha@example.com"
  phone := "9876543210"
  dateTime := "2025-06-01T19:00"
  guests := JsNum.fin 4
  tableNumber := JsNum.fin 12
  whatsappOptIn := true

/-- The character that stands for an unpaired surrogate in `surrogateEnv`: U+FFFD, which
the database driver stores in its place. -/
def surrogateMark : Char := Char.ofNat 65533

/-- The sample environment in which `surrogateMark` stands for an unpaired surrogate:
`encodeURIComponent` throws on every string that holds it. -/
def surrogateEnv : Env where
  strToNum := sampleStrToNum
  numToStr := sampleNumToStr
  toLowerCase := sampleToLowerCase
  parseTimestamp := sampleParseTimestamp
  encodeURIComponent := fun s =>
    if s.data.any (fun c => decide (c = surrogateMark)) then none else some s

/-- The scenario request with a name of one code unit, an unpaired surrogate (the JSON body
has `"name":"\ud800"`). -/
def surrogateRequest : Request where
  body :=
    { sampleBody (JsVal.num (JsNum.fin 4)) (JsVal.num (JsNum.fin 12)) with
      name := JsVal.str (String.mk [surrogateMark]) }
  auth := none

/-- The payload built from `surrogateRequest`. -/
def surrogatePayload : Payload :=
  { samplePayload with name := String.mk [surrogateMark] }

/-! ## Properties of traces -/

/-- The event is a request to the WhatsApp provider. -/
def Event.isPost : Event → Bool
  | .post _ _ _ => true
  | _ => false

/-- The event is the conflict lookup. -/
def Event.isLookup : Event → Bool
  | .lookup _ _ => true
  | _ => false

/-- The event is the insert statement or its success. -/
def Event.isInsert : Event → Bool
  | .insert _ => true
  | .inserted _ => true
  | _ => false

/-- The event is the success of an insert. -/
def Event.isInserted : Event → Bool
  | .inserted _ => true
  | _ => false

/-- Persistence before notification: every provider request of the trace has a successful
insert before it. -/
def SendsAfterInsert (trace : List Event) : Prop :=
  ∀ pre e post, trace = pre ++ e :: post → e.isPost = true →
    ∃ x ∈ pre, x.isInserted = true

/-- Notification before persistence: every provider request of the trace has the conflict
lookup before it, no insert before it and the insert statement after it. -/
def SendsBetweenLookupAndInsert (trace : List Event) : Prop :=
  ∀ pre e post, trace = pre ++ e :: post → e.isPost = true →
    (∃ x ∈ pre, x.isLookup = true) ∧ (∀ x ∈ pre, x.isInsert = false)
      ∧ ∃ x ∈ post, x.isInsert = true

/-- The `whatsappDelivery` of the response of a run, when the response is a `201`. -/
def Outcome.delivery (o : Outcome) : Option NotificationStatus :=
  match o.response with
  | some ⟨_, .created _ _ whatsappDelivery _⟩ => some whatsappDelivery
  | _ => none

/-! ## `backend/whatsapp.js`: webhook signature -/

/-- What the module `crypto` of the runtime computes outside this repository. -/
structure Crypto where
  /-- The digest `crypto.createHmac('sha256', secret).update(body).digest('hex')`, as
  lower-case hexadecimal text, for a secret and a body. -/
  hmacSha256Hex : String → String → String

/-- The call `s.replace(/^sha256=/, '')`: the prefix is removed when the text starts with
it. -/
def stripSha256Prefix (s : String) : String :=
  if "sha256=".data.isPrefixOf s.data then String.mk (s.data.drop 7) else s

/-- The method `shouldVerifyMetaSignature()`. -/
def WhatsAppService.shouldVerifyMetaSignature (cfg : Config) : Bool :=
  decide (cfg.provider = "meta") && decide (cfg.metaAppSecret ≠ "")

/-- The method `verifyMetaSignature(rawBody, signatureHeader)`; an argument is `none` when
it is `undefined`. `crypto.timingSafeEqual` throws when the two buffers differ in length,
which the `catch` turns into `false`, and otherwise compares them byte by byte; the UTF-8
bytes of two strings are equal exactly when the strings are. -/
def WhatsAppService.verifyMetaSignature (crypto : Crypto) (cfg : Config)
    (rawBody signatureHeader : Option String) : Bool :=
  if !WhatsAppService.shouldVerifyMetaSignature cfg then true
  else
    match rawBody, signatureHeader with
    | some body, some header =>
      if body = "" ∨ header = "" then false
      else
        let expected := crypto.hmacSha256Hex cfg.metaAppSecret body
        let provided := jsTrim (stripSha256Prefix header)
        if expected.utf8ByteSize ≠ provided.utf8ByteSize then false
        else decide (expected = provided)
    | _, _ => false

/-- A sample of the keyed digest for concrete runs, not the real function: sixty-four
hexadecimal characters chosen by the lengths of the secret and of the body. -/
def sampleHmac (secret body : String) : String :=
  String.mk (List.replicate 64
    (if (secret.length + body.length) % 2 = 0 then 'a' else '7'))

/-- A sample of `Crypto`. -/
def sampleCrypto : Crypto where
  hmacSha256Hex := sampleHmac

/-! ## `backend/whatsapp.js`: intent detection -/

/-- A regular expression that is a literal word matches somewhere in the input: the word is
a prefix of one of the suffixes of the input. -/
def includesWord (input word : List Char) : Bool :=
  input.tails.any (fun rest => word.isPrefixOf rest)

/-- The call `/w1|w2|.../.test(input)` for literal words `w1`, `w2`, ... -/
def regexTest (words : List String) (input : String) : Bool :=
  words.any (fun w => includesWord input.data w.data)

/-- The method `detectIntent(text)` on a string `text`. -/
def WhatsAppService.detectIntent (env : Env) (text : String) : String :=
  let input := env.toLowerCase text
  if regexTest ["book", "reserve", "reservation", "table"] input then "reservation"
  else if regexTest ["menu", "dish", "food", "item", "price"] input then "menu"
  else if regexTest ["hello", "hi", "hey", "start"] input then "greeting"
  else if regexTest ["confirm", "status", "check"] input then "confirmation"
  else if regexTest ["help", "support"] input then "help"
  else "fallback"

/-! ## Reference definitions, written from the specification -/

/-- The intents of the specification in their fixed order, each with its keywords. -/
def intentKeywords : List (String × List String) :=
  [("reservation", ["book", "reserve", "reservation", "table"]),
   ("menu", ["menu", "dish", "food", "item", "price"]),
   ("greeting", ["hello", "hi", "hey", "start"]),
   ("confirmation", ["confirm", "status", "check"]),
   ("help", ["help", "support"])]

/-- A keyword of the entry occurs as a substring of the text. -/
def keywordOccurs (lowered : String) (entry : String × List String) : Prop :=
  ∃ k ∈ entry.2, k.data <:+: lowered.data

instance (lowered : String) (entry : String × List String) :
    Decidable (keywordOccurs lowered entry) := by
  unfold keywordOccurs
  infer_instance

/-- The classifier of the specification on a lower-cased text: the first intent, in the fixed
order, one of whose keywords occurs in the text, and `fallback` when there is none. -/
def classifyReference (lowered : String) : String :=
  match intentKeywords.find? (fun entry => decide (keywordOccurs lowered entry)) with
  | some entry => entry.1
  | none => "fallback"

/-- The digit characters of a text, in order. -/
def digitCharacters (t : String) : String :=
  String.mk (t.data.filter Char.isDigit)

/-- The normalizer of the specification, case by case on the trimmed input: empty gives `''`;
a leading `+` gives `+` and the digits; exactly ten digits give `+`, the country code and the
digits; any other input with at least one digit gives `+` and the digits. An input with no
digit and no leading `+` is outside the cases (`none`). -/
def normalizeReference (raw defaultCountryCode : String) : Option String :=
  let t := jsTrim raw
  if t.length = 0 then some ""
  else if t.front = '+' then some ("+" ++ digitCharacters t)
  else if (digitCharacters t).length = 10 then
    some ("+" ++ defaultCountryCode ++ digitCharacters t)
  else if 1 ≤ (digitCharacters t).length then some ("+" ++ digitCharacters t)
  else none

/-- The reasons of a failed delivery entry listed by the specification. -/
def listedReasons : List String :=
  ["not-attempted", "missing-recipient", "provider-disabled", "customer-not-opted-in",
    "invalid-customer-phone", "send-failed", "template-send-failed"]

/-- An entry has one of the two shapes of the data model, `sent: true` with provider,
recipient and message id, or `sent: false` with a reason of the given list, an optional
detail and nothing else. -/
def DeliveryStatus.HasShape (reasons : List String) : DeliveryStatus → Prop
  | .sent _ _ _ => True
  | .notSent reason _ recipient => reason ∈ reasons ∧ recipient = none

/-- The event is a free-text request to a provider. -/
def Event.isTextPost : Event → Bool
  | .post Wire.metaText _ _ => true
  | .post Wire.twilioForm _ _ => true
  | _ => false

/-- The digits of a country code are all decimal digits. -/
def DigitsOnly (s : String) : Prop :=
  ∀ c ∈ s.data, isAsciiDigit c = true

/-- A cloud-API configuration with an app secret, for concrete runs. -/
def signedConfig : Config :=
  { sampleConfig "meta" "+917858062571" with metaAppSecret := "secret" }

/-- A cloud-API configuration with a reservation template, for concrete runs. -/
def templateConfig : Config :=
  { sampleConfig "meta" "+917858062571" with reservationTemplateName := "reservation_confirmed" }

/-- The list of reasons of the specification with the reason of a missing admin number. -/
def knownReasons : List String :=
  "missing-admin-number" :: listedReasons

/-! ## `backend/whatsapp.js`: the conversational bot -/

/-- An entry of the map `sessions`: `intent`, `createdAt` and, once a message has been
handled, `lastMessageAt`. -/
structure Session where
  intent : String
  createdAt : Int
  lastMessageAt : Option Int
  deriving DecidableEq

/-- The map `this.sessions`, from a sender to its session; the code never iterates over it
and never deletes from it. -/
abbrev Sessions := String → Option Session

/-- The call `sessions.set(key, value)`. -/
def Sessions.set (sessions : Sessions) (key : String) (value : Session) : Sessions :=
  fun k => if k = key then some value else sessions k

/-- The map `new Map()` of the constructor. -/
def Sessions.empty : Sessions :=
  fun _ => none

/-- The method `getSession(from)` (the parameter `from` is named `sender`): the map after
the call and the session returned; `now` is what `Date.now()` gives if it is read. -/
def WhatsAppService.getSession (sessions : Sessions) (sender : String) (now : Int) :
    Sessions × Session :=
  match sessions sender with
  | some session => (sessions, session)
  | none =>
    let session : Session := { intent := "", createdAt := now, lastMessageAt := none }
    (sessions.set sender session, session)

/-- What the request to the generative backend does when it is made: the response is read
and carries this `content` (`String(data?.choices?.[0]?.message?.content || '')`), the
response is not `ok`, or `fetch` or `response.json()` throws. -/
inductive AiOutcome
  | replied (content : String)
  | notOk
  | failed
  deriving DecidableEq

/-- The method `maybeOpenAiReply(userText, intent)`; the prompt sent is not recorded. -/
def WhatsAppService.maybeOpenAiReply (cfg : Config) (ai : AiOutcome) : String :=
  if cfg.openAiApiKey = "" then ""
  else
    match ai with
    | .replied content => jsTrim content
    | .notOk => ""
    | .failed => ""

/-- The method `getDefaultBotReply(intent)`. -/
def WhatsAppService.getDefaultBotReply (intent : String) : String :=
  if intent = "greeting" then
    "Welcome to RAHMAN Restaurant! You can book a table, ask for menu highlights, or check a reservation."
  else if intent = "reservation" then
    "For instant booking, use our website reservation form. Share your preferred date/time, guests, and we can guide you."
  else if intent = "menu" then
    "Today\x27s popular items include Butter Chicken, Tandoori Chicken, and Chana Masala. Want veg or non-veg suggestions?"
  else if intent = "confirmation" then
    "Please share your name and reservation date/time, and our team will confirm availability."
  else if intent = "help" then
    "Type BOOK TABLE, MENU, or STATUS. You can also call us directly for urgent support."
  else
    "I can help with table bookings, menu queries, and reservation confirmations. Type HELP to see options."

/-- The two readings of `Date.now()` a call of `buildBotReply` can make: in `getSession`
when the session is created, and for `lastMessageAt`. -/
structure Clock where
  atCreate : Int
  atMessage : Int

/-- The method `buildBotReply(from, text)`: the reply and the map of sessions afterwards. -/
def WhatsAppService.buildBotReply (env : Env) (cfg : Config) (ai : AiOutcome) (clock : Clock)
    (sessions : Sessions) (sender text : String) : String × Sessions :=
  let got := WhatsAppService.getSession sessions sender clock.atCreate
  let intent := WhatsAppService.detectIntent env text
  let updated : Session :=
    { got.2 with intent := intent, lastMessageAt := some clock.atMessage }
  let aiReply := WhatsAppService.maybeOpenAiReply cfg ai
  (if aiReply = "" then WhatsAppService.getDefaultBotReply intent else aiReply,
    got.1.set sender updated)

/-! ## `backend/whatsapp.js`: inbound cloud-API messages -/

/-- A message of a cloud-API webhook payload, with the properties the service reads:
`from` (named `sender`), `type`, `text.body`, `button.text`,
`interactive.button_reply.title` and `interactive.list_reply.title`. Each is a text or
absent, as in the message schema of the cloud API. -/
structure IncomingMessage where
  sender : Option String
  type : Option String
  textBody : Option String
  buttonText : Option String
  buttonReplyTitle : Option String
  listReplyTitle : Option String
  deriving DecidableEq

/-- The expression `a || b` on texts that may be absent, `b` being a text. -/
def textOr (a : Option String) (b : String) : String :=
  match a with
  | some s => if s = "" then b else s
  | none => b

/-- The function `getTextFromIncomingMessage(message)`; `none` is a missing message. -/
def getTextFromIncomingMessage (message : Option IncomingMessage) : String :=
  match message with
  | none => ""
  | some m =>
    if m.type = some "text" then jsTrim (textOr m.textBody "")
    else if m.type = some "button" then jsTrim (textOr m.buttonText "")
    else if m.type = some "interactive" then
      jsTrim (textOr m.buttonReplyTitle (textOr m.listReplyTitle ""))
    else ""

/-- The value `change?.value?.messages`: an array of messages or absent. -/
structure Change where
  messages : Option (List (Option IncomingMessage))

/-- The value `entry?.changes`: an array of changes, or `none` when it is no array. -/
structure Entry where
  changes : Option (List Change)

/-- The body of a cloud-API webhook delivery; `entry` is `none` when it is no array. -/
structure MetaPayload where
  entry : Option (List Entry)

/-- The messages the three nested loops of `handleMetaWebhook` visit, in order. -/
def MetaPayload.messages (payload : MetaPayload) : List (Option IncomingMessage) :=
  (payload.entry.getD []).flatMap fun entry =>
    (entry.changes.getD []).flatMap fun change => change.messages.getD []

/-- What the world does for one message if it is processed: the generative backend, the
clock and the provider. -/
structure MessageOracle where
  ai : AiOutcome
  clock : Clock
  net : NetResult

/-- The expression `normalizePhoneNumber(message?.from || '')` of `handleMetaWebhook`, with
the default country code of the function. -/
def messageSender (message : Option IncomingMessage) : String :=
  normalizePhoneNumber (textOr (message.bind fun m => m.sender) "") "91"

/-- The state of a run of `handleMetaWebhook`: what it returns (`processedMessages`, or the
message of the error thrown by a send), the sessions, the calls `sendText(from, reply)`
made and the provider requests. -/
structure WebhookRun where
  result : Except String Nat
  sessions : Sessions
  replies : List (String × String)
  trace : List Event

/-- The loop body of `handleMetaWebhook` over the messages of the payload, the message at
position `index` being subject to `oracle index`. -/
def processMessages (env : Env) (cfg : Config) (oracle : Nat → MessageOracle) :
    Nat → List (Option IncomingMessage) → Sessions → WebhookRun
  | _, [], sessions => ⟨.ok 0, sessions, [], []⟩
  | index, message :: rest, sessions =>
    let sender := messageSender message
    let text := getTextFromIncomingMessage message
    if sender = "" ∨ text = "" then processMessages env cfg oracle (index + 1) rest sessions
    else
      let reply := WhatsAppService.buildBotReply env cfg (oracle index).ai
        (oracle index).clock sessions sender text
      let sent := WhatsAppService.sendText cfg (oracle index).net sender reply.1
      match sent.result with
      | .error message => ⟨.error message, reply.2, [(sender, reply.1)], sent.trace⟩
      | .ok _ =>
        let later := processMessages env cfg oracle (index + 1) rest reply.2
        ⟨later.result.map (fun n => n + 1), later.sessions, (sender, reply.1) :: later.replies,
          sent.trace ++ later.trace⟩

/-- The method `handleMetaWebhook(payload)`. -/
def WhatsAppService.handleMetaWebhook (env : Env) (cfg : Config) (oracle : Nat → MessageOracle)
    (sessions : Sessions) (payload : MetaPayload) : WebhookRun :=
  processMessages env cfg oracle 0 payload.messages sessions

/-! ## `backend/server.js`: the webhook routes and the error middleware -/

/-- The body of a response of the webhook routes and of the error middleware: a JSON object
with `message` and an optional `detail`, the acknowledgement of a delivery, or a text. -/
inductive HttpBody
  | message (message : String) (detail : Option String)
  | ack (processedMessages : Nat)
  | text (content : String)
  deriving DecidableEq

/-- A response of the webhook routes. -/
structure HttpResponse where
  status : Nat
  body : HttpBody
  deriving DecidableEq

/-- A query parameter as parsed by the framework: absent, a text, or an array or object, of
which only the conversion to a string matters. -/
inductive QueryValue
  | absent
  | text (s : String)
  | other (asString : String)
  deriving DecidableEq

/-- The expression `String(v || '')` on a query parameter. -/
def QueryValue.orEmpty : QueryValue → String
  | .absent => ""
  | .text s => s
  | .other asString => asString

/-- The handler `app.get('/api/whatsapp/webhook')`; `verifyToken` is the constant
`WHATSAPP_VERIFY_TOKEN`. -/
def getWebhook (verifyToken : String) (mode token challenge : QueryValue) : HttpResponse :=
  if mode = .text "subscribe" ∧ token = .text verifyToken then
    ⟨200, .text challenge.orEmpty⟩
  else ⟨403, .message "Webhook verification failed" none⟩

/-- What the handler of a cloud-API delivery reads of a request. -/
structure WebhookRequest where
  rawBody : Option String
  signature : Option String
  body : MetaPayload

/-- The outcome of a delivery: the response, the sessions afterwards, the calls
`sendText(from, reply)` made and the provider requests. -/
structure WebhookOutcome where
  response : HttpResponse
  sessions : Sessions
  replies : List (String × String)
  trace : List Event

/-- The handler `app.post('/api/whatsapp/webhook')`. -/
def postWebhook (env : Env) (crypto : Crypto) (cfg : Config) (oracle : Nat → MessageOracle)
    (sessions : Sessions) (req : WebhookRequest) : WebhookOutcome :=
  if !WhatsAppService.verifyMetaSignature crypto cfg req.rawBody req.signature then
    ⟨⟨401, .message "Invalid webhook signature" none⟩, sessions, [], []⟩
  else
    let run := WhatsAppService.handleMetaWebhook env cfg oracle sessions req.body
    match run.result with
    | .ok processedMessages => ⟨⟨200, .ack processedMessages⟩, run.sessions, run.replies, run.trace⟩
    | .error message =>
      ⟨⟨500, .message "Failed to process WhatsApp webhook" (some message)⟩, run.sessions,
        run.replies, run.trace⟩

/-- The final error middleware of the server for an error with this message; `none` when
the headers were already sent and the error is passed on. -/
def errorMiddleware (isProduction headersSent : Bool) (errorMessage : String) :
    Option HttpResponse :=
  if headersSent then none
  else if isProduction then some ⟨500, .message "Internal server error" none⟩
  else some ⟨500, .message "Internal server error" (some errorMessage)⟩

/-! ## What a delivery is expected to do -/

/-- The message is one `handleMetaWebhook` processes. -/
def processable (message : Option IncomingMessage) : Bool :=
  decide (messageSender message ≠ "") && decide (getTextFromIncomingMessage message ≠ "")

/-- The reply of the bot to a text: the reply of the generative backend when it gives one,
the fixed reply of the detected intent otherwise. -/
def botReplyText (env : Env) (cfg : Config) (ai : AiOutcome) (text : String) : String :=
  if WhatsAppService.maybeOpenAiReply cfg ai = "" then
    WhatsAppService.getDefaultBotReply (WhatsAppService.detectIntent env text)
  else WhatsAppService.maybeOpenAiReply cfg ai

/-- The provider request that carries a reply to a sender. -/
def replyRequest (cfg : Config) (reply : String × String) : Event :=
  if cfg.provider = "meta" then
    Event.post Wire.metaText
      (toMetaWaId (normalizePhoneNumber reply.1 cfg.defaultCountryCode)) reply.2
  else
    Event.post Wire.twilioForm
      ("whatsapp:" ++ normalizePhoneNumber reply.1 cfg.defaultCountryCode) reply.2

/-- The processable messages of a list with their positions, counted from `index`. -/
def processableFrom (index : Nat) (messages : List (Option IncomingMessage)) :
    List (Nat × Option IncomingMessage) :=
  (messages.enumFrom index).filter fun im => processable im.2

/-- The calls `sendText(from, reply)` expected for the processable messages, in order. -/
def expectedReplies (env : Env) (cfg : Config) (oracle : Nat → MessageOracle) (index : Nat)
    (messages : List (Option IncomingMessage)) : List (String × String) :=
  (processableFrom index messages).map fun im =>
    (messageSender im.2, botReplyText env cfg (oracle im.1).ai (getTextFromIncomingMessage im.2))

/-- The sessions expected after the bot has been called for the processable messages, in
order, and for no other message. -/
def expectedSessions (env : Env) (cfg : Config) (oracle : Nat → MessageOracle) (index : Nat)
    (messages : List (Option IncomingMessage)) (sessions : Sessions) : Sessions :=
  (processableFrom index messages).foldl (fun s im =>
    (WhatsAppService.buildBotReply env cfg (oracle im.1).ai (oracle im.1).clock s
      (messageSender im.2) (getTextFromIncomingMessage im.2)).2) sessions

/-- A message of type `text` from a sender, for concrete runs. -/
def textMessage (sender body : String) : Option IncomingMessage :=
  some
    { sender := some sender
      type := some "text"
      textBody := some body
      buttonText := none
      buttonReplyTitle := none
      listReplyTitle := none }

/-- An oracle for concrete runs: the backend gives no reply, the provider accepts. -/
def quietOracle (index : Nat) : MessageOracle where
  ai := AiOutcome.notOk
  clock := ⟨1000 + index, 1001 + index⟩
  net := NetResult.ok "wamid.reply"

/-! ## Lemmas on the store -/

set_option maxRecDepth 100000

theorem insertReservation_cases (env : Env) (db : Db) (auth : Option Auth) (payload : Payload)
    (delivery : NotificationStatus) :
    (∃ e, (insertReservation env db auth payload delivery).1 = .error e
        ∧ (insertReservation env db auth payload delivery).2.rows = db.rows)
    ∨ ∃ row t ts, (insertReservation env db auth payload delivery).1 = .ok db.nextId
        ∧ (insertReservation env db auth payload delivery).2.rows = db.rows ++ [row]
        ∧ row.slotKey = (t, ts)
        ∧ pgInt4 payload.tableNumber = some t ∧ env.parseTimestamp payload.dateTime = some ts
        ∧ ∀ r ∈ db.rows, r.slotKey ≠ (t, ts) := by
  unfold insertReservation
  cases hts : env.parseTimestamp payload.dateTime with
  | none => exact Or.inl ⟨_, rfl, rfl⟩
  | some ts =>
    cases hg : pgInt4 payload.guests with
    | none => exact Or.inl ⟨_, rfl, rfl⟩
    | some g =>
      cases ht : pgInt4 payload.tableNumber with
      | none => exact Or.inl ⟨_, rfl, rfl⟩
      | some t =>
        by_cases hany : db.rows.any (fun r => decide (r.slotKey = (t, ts))) = true
        · dsimp only
          rw [if_pos hany]
          exact Or.inl ⟨_, rfl, rfl⟩
        · dsimp only
          rw [if_neg hany]
          refine Or.inr ⟨_, t, ts, rfl, rfl, rfl, rfl, rfl, ?_⟩
          intro r hr hkey
          apply hany
          rw [List.any_eq_true]
          exact ⟨r, hr, by simpa using hkey⟩

theorem insertReservation_noDoubleBooking (env : Env) (db : Db) (auth : Option Auth)
    (payload : Payload) (delivery : NotificationStatus) (h : NoDoubleBooking db) :
    NoDoubleBooking (insertReservation env db auth payload delivery).2 := by
  unfold NoDoubleBooking at *
  rcases insertReservation_cases env db auth payload delivery with
    ⟨e, -, hrows⟩ | ⟨row, t, ts, -, hrows, hkey, -, -, hfresh⟩
  · rw [hrows]; exact h
  · rw [hrows, List.map_append, List.map_singleton]
    refine List.Nodup.append h (List.nodup_singleton _) ?_
    rw [List.disjoint_singleton]
    intro hmem
    rcases List.mem_map.1 hmem with ⟨r, hr, hrk⟩
    exact hfresh r hr (hrk.trans hkey)

theorem insertReservation_stored (env : Env) (db : Db) (auth : Option Auth)
    (payload : Payload) (delivery : NotificationStatus) (id : Nat)
    (h : (insertReservation env db auth payload delivery).1 = .ok id) :
    ∃ row, (insertReservation env db auth payload delivery).2.rows = db.rows ++ [row]
      ∧ row.name = payload.name := by
  revert h
  unfold insertReservation
  cases env.parseTimestamp payload.dateTime with
  | none => intro h; exact absurd h (by simp)
  | some ts =>
    cases pgInt4 payload.guests with
    | none => intro h; exact absurd h (by simp)
    | some g =>
      cases pgInt4 payload.tableNumber with
      | none => intro h; exact absurd h (by simp)
      | some t =>
        by_cases hany : db.rows.any (fun r => decide (r.slotKey = (t, ts))) = true
        · dsimp only
          rw [if_pos hany]
          intro h
          exact absurd h (by simp)
        · dsimp only
          rw [if_neg hany]
          intro _
          exact ⟨_, rfl, rfl⟩

theorem completeStage_db (env : Env) (srv : Server) (net : NetOutcomes) (db : Db)
    (req : Request) (payload : Payload) :
    (completeStage env srv net db req payload).db
      = (insertReservation env db req.auth payload
          (notifyStage env srv.whatsapp net payload).1).2 := by
  unfold completeStage
  dsimp only
  split
  · rfl
  · split <;> rfl

theorem postReservations_db (env : Env) (srv : Server) (net : NetOutcomes) (db : Db)
    (req : Request) :
    (postReservations env srv net db req).db = db
    ∨ ∃ payload, (postReservations env srv net db req).db
        = (insertReservation env db req.auth payload
            (notifyStage env srv.whatsapp net payload).1).2 := by
  unfold postReservations
  split
  · exact Or.inr ⟨_, completeStage_db env srv net db req _⟩
  · exact Or.inl rfl
  · exact Or.inl rfl

theorem postReservations_noDoubleBooking (env : Env) (srv : Server) (net : NetOutcomes)
    (db : Db) (req : Request) (h : NoDoubleBooking db) :
    NoDoubleBooking (postReservations env srv net db req).db := by
  rcases postReservations_db env srv net db req with hdb | ⟨payload, hdb⟩
  · rw [hdb]; exact h
  · rw [hdb]; exact insertReservation_noDoubleBooking env db req.auth payload _ h

/-! ## Lemmas on the handler -/

theorem normalizeEmail_logged (env : Env) (v : JsVal) (e : String)
    (h : normalizeEmail env (v.withDefault (JsVal.str "")) = some e) :
    (normalizeEmail env (v.orElse (JsVal.str ""))).isSome = true := by
  cases v with
  | obj prim =>
    cases prim <;>
      simp_all [normalizeEmail, JsVal.withDefault, JsVal.orElse, JsVal.truthy, JsVal.toStr]
  | bool b =>
    cases b <;>
      simp [normalizeEmail, JsVal.orElse, JsVal.truthy, JsVal.toStr]
  | num n =>
    by_cases hn : n.truthy = true <;>
      simp [normalizeEmail, JsVal.orElse, JsVal.truthy, JsVal.toStr, hn]
  | str s =>
    by_cases hs : s = "" <;>
      simp [normalizeEmail, JsVal.orElse, JsVal.truthy, JsVal.toStr, hs]
  | undefined => simp [normalizeEmail, JsVal.orElse, JsVal.truthy, JsVal.toStr]
  | null => simp [normalizeEmail, JsVal.orElse, JsVal.truthy, JsVal.toStr]

theorem logApiFailure_of_buildPayload (env : Env) (req : Request) (payload : Payload)
    (h : buildPayload env req.body = some payload) : logApiFailure env req = true := by
  unfold buildPayload at h
  split at h
  · next _ email _ _ _ _ _ hemail _ _ _ _ =>
      exact normalizeEmail_logged env req.body.email email hemail
  · exact absurd h (by simp)

theorem lookupStage_of_conflict (env : Env) (db : Db) (req : Request) (payload : Payload)
    (hp : buildPayload env req.body = some payload)
    (hv : validate env req payload = .next payload)
    (r : Reservation) (hr : r ∈ db.rows)
    (ht : pgInt4 payload.tableNumber = some r.tableNumber)
    (hts : env.parseTimestamp payload.dateTime = some r.dateTime) :
    lookupStage env db req
      = (.respond ⟨409, .message "Table is already reserved for this slot." none⟩,
          [Event.lookup payload.tableNumber payload.dateTime]) := by
  have hlog := logApiFailure_of_buildPayload env req payload hp
  unfold lookupStage
  rw [hp]
  dsimp only
  rw [hv]
  dsimp only
  unfold selectBySlot
  rw [ht, hts]
  dsimp only
  cases hfind : db.rows.find? (fun x => decide (x.slotKey = (r.tableNumber, r.dateTime))) with
  | none =>
    rw [List.find?_eq_none] at hfind
    exact absurd (hfind r hr) (by simp [Reservation.slotKey])
  | some found =>
    simp only [logged, hlog, if_true]

theorem logged_cases (env : Env) (req : Request) (status : Nat) (message : String) :
    logged env req status message = .respond ⟨status, .message message none⟩
    ∨ logged env req status message = .throw Thrown.typeError := by
  unfold logged
  split
  · exact Or.inl rfl
  · exact Or.inr rfl

theorem validate_cases (env : Env) (req : Request) (payload : Payload) :
    validate env req payload = .next payload
    ∨ ∃ message, validate env req payload = logged env req 400 message := by
  unfold validate
  split
  · exact Or.inr ⟨_, rfl⟩
  · split
    · exact Or.inr ⟨_, rfl⟩
    · split
      · exact Or.inr ⟨_, rfl⟩
      · exact Or.inl rfl

theorem validate_next (env : Env) (req : Request) (payload p : Payload)
    (h : validate env req payload = .next p) : validate env req payload = .next payload := by
  rcases validate_cases env req payload with hv | ⟨m, hv⟩
  · exact hv
  · rw [hv] at h
    rcases logged_cases env req 400 m with hl | hl <;> rw [hl] at h <;> cases h

theorem lookupStage_next (env : Env) (db : Db) (req : Request) (payload : Payload)
    (tr : List Event) (h : lookupStage env db req = (.next payload, tr)) :
    buildPayload env req.body = some payload ∧ validate env req payload = .next payload
    ∧ selectBySlot env db payload.tableNumber payload.dateTime = .ok none
    ∧ tr = [Event.lookup payload.tableNumber payload.dateTime] := by
  unfold lookupStage at h
  split at h
  · cases h
  · next p hp =>
    split at h
    · next q hq =>
      have hv := validate_next env req p q hq
      dsimp only at h
      split at h
      · cases h
      · rcases logged_cases env req 409 "Table is already reserved for this slot." with hl | hl <;>
          rw [hl] at h <;> cases h
      · next hsel =>
        cases h
        exact ⟨hp, hv, hsel, rfl⟩
    · next hne =>
      rcases validate_cases env req p with hv | ⟨m, hv⟩
      · exact absurd hv (hne p)
      · rw [hv] at h
        rcases logged_cases env req 400 m with hl | hl <;> rw [hl] at h <;> cases h

theorem lookupStage_respond (env : Env) (db : Db) (req : Request) (r : Response)
    (tr : List Event) (h : lookupStage env db req = (.respond r, tr)) :
    ∃ status message, r = ⟨status, .message message none⟩ ∧ (status = 400 ∨ status = 409) := by
  unfold lookupStage at h
  split at h
  · cases h
  · next p hp =>
    split at h
    · dsimp only at h
      split at h
      · cases h
      · rcases logged_cases env req 409 "Table is already reserved for this slot." with hl | hl <;>
          rw [hl] at h <;> cases h
        exact ⟨409, _, rfl, Or.inr rfl⟩
      · cases h
    · rcases validate_cases env req p with hv | ⟨m, hv⟩
      · rw [hv] at h; cases h
      · rw [hv] at h
        rcases logged_cases env req 400 m with hl | hl <;> rw [hl] at h <;> cases h
        exact ⟨400, m, rfl, Or.inl rfl⟩

theorem catchBlock_status (env : Env) (req : Request) (e : Thrown) (r : Response)
    (h : catchBlock env req e = some r) : r.status = 500 := by
  unfold catchBlock at h
  split at h
  · cases h; rfl
  · cases h

theorem postReservations_of_respond (env : Env) (srv : Server) (net : NetOutcomes) (db : Db)
    (req : Request) (r : Response) (tr : List Event)
    (h : lookupStage env db req = (.respond r, tr)) :
    postReservations env srv net db req = ⟨some r, db, tr⟩ := by
  unfold postReservations
  rw [h]

theorem postReservations_of_next (env : Env) (srv : Server) (net : NetOutcomes) (db : Db)
    (req : Request) (payload : Payload) (tr : List Event)
    (h : lookupStage env db req = (.next payload, tr)) :
    postReservations env srv net db req
      = ⟨(completeStage env srv net db req payload).response,
          (completeStage env srv net db req payload).db,
          tr ++ (completeStage env srv net db req payload).trace⟩ := by
  unfold postReservations
  rw [h]

theorem postReservations_of_throw (env : Env) (srv : Server) (net : NetOutcomes) (db : Db)
    (req : Request) (e : Thrown) (tr : List Event)
    (h : lookupStage env db req = (.throw e, tr)) :
    postReservations env srv net db req = ⟨catchBlock env req e, db, tr⟩ := by
  unfold postReservations
  rw [h]

theorem completeStage_of_error (env : Env) (srv : Server) (net : NetOutcomes) (db : Db)
    (req : Request) (payload : Payload) (e : Thrown)
    (h : (insertReservation env db req.auth payload
        (notifyStage env srv.whatsapp net payload).1).1 = .error e) :
    completeStage env srv net db req payload
      = ⟨catchBlock env req e,
          (insertReservation env db req.auth payload
            (notifyStage env srv.whatsapp net payload).1).2,
          (notifyStage env srv.whatsapp net payload).2 ++ [Event.insert payload]⟩ := by
  unfold completeStage
  dsimp only
  rw [h]

theorem completeStage_of_ok (env : Env) (srv : Server) (net : NetOutcomes) (db : Db)
    (req : Request) (payload : Payload) (id : Nat) (link : String)
    (h : (insertReservation env db req.auth payload
        (notifyStage env srv.whatsapp net payload).1).1 = .ok id)
    (hlink : getReservationWhatsAppLink env srv payload = some link) :
    completeStage env srv net db req payload
      = ⟨some ⟨201, .created
            (selectById (insertReservation env db req.auth payload
              (notifyStage env srv.whatsapp net payload).1).2 id)
            link
            (notifyStage env srv.whatsapp net payload).1
            (if WhatsAppService.isEnabled srv.whatsapp then ""
             else "Set WHATSAPP_PROVIDER=meta or twilio in .env to enable automated sends.")⟩,
          (insertReservation env db req.auth payload
            (notifyStage env srv.whatsapp net payload).1).2,
          (notifyStage env srv.whatsapp net payload).2
            ++ [Event.insert payload, Event.inserted id]⟩ := by
  unfold completeStage
  dsimp only
  rw [h]
  dsimp only
  rw [hlink]

theorem completeStage_of_link_error (env : Env) (srv : Server) (net : NetOutcomes) (db : Db)
    (req : Request) (payload : Payload) (id : Nat)
    (h : (insertReservation env db req.auth payload
        (notifyStage env srv.whatsapp net payload).1).1 = .ok id)
    (hlink : getReservationWhatsAppLink env srv payload = none) :
    completeStage env srv net db req payload
      = ⟨catchBlock env req Thrown.uriError,
          (insertReservation env db req.auth payload
            (notifyStage env srv.whatsapp net payload).1).2,
          (notifyStage env srv.whatsapp net payload).2
            ++ [Event.insert payload, Event.inserted id]⟩ := by
  unfold completeStage
  dsimp only
  rw [h]
  dsimp only
  rw [hlink]

theorem getReservationWhatsAppLink_eq_none (env : Env) (srv : Server) (payload : Payload) :
    getReservationWhatsAppLink env srv payload = none
      ↔ env.encodeURIComponent (getReservationWhatsAppMessage env payload) = none := by
  unfold getReservationWhatsAppLink
  cases env.encodeURIComponent (getReservationWhatsAppMessage env payload) <;> simp

theorem postReservations_created (env : Env) (srv : Server) (net : NetOutcomes) (db : Db)
    (req : Request)
    (h : (postReservations env srv net db req).response.map (fun r => r.status) = some 201) :
    ∃ payload tr id, lookupStage env db req = (.next payload, tr)
      ∧ (insertReservation env db req.auth payload
          (notifyStage env srv.whatsapp net payload).1).1 = .ok id
      ∧ ∃ link, getReservationWhatsAppLink env srv payload = some link := by
  cases hl : lookupStage env db req with
  | mk flow tr =>
    cases flow with
    | respond r =>
      rw [postReservations_of_respond env srv net db req r tr hl] at h
      rcases lookupStage_respond env db req r tr hl with ⟨st, m, hr, hs | hs⟩ <;>
        simp [hr, hs] at h
    | throw e =>
      rw [postReservations_of_throw env srv net db req e tr hl] at h
      cases hc : catchBlock env req e with
      | none => simp [hc] at h
      | some r => simp [hc, catchBlock_status env req e r hc] at h
    | next payload =>
      rw [postReservations_of_next env srv net db req payload tr hl] at h
      cases hi : (insertReservation env db req.auth payload
          (notifyStage env srv.whatsapp net payload).1).1 with
      | ok id =>
        cases hk : getReservationWhatsAppLink env srv payload with
        | some link => exact ⟨payload, tr, id, rfl, hi, link, hk⟩
        | none =>
          rw [completeStage_of_link_error env srv net db req payload id hi hk] at h
          cases hc : catchBlock env req Thrown.uriError with
          | none => simp [hc] at h
          | some r => simp [hc, catchBlock_status env req _ r hc] at h
      | error e =>
        rw [completeStage_of_error env srv net db req payload e hi] at h
        cases hc : catchBlock env req e with
        | none => simp [hc] at h
        | some r => simp [hc, catchBlock_status env req e r hc] at h

theorem validate_order (env : Env) (req : Request) (payload : Payload)
    (hp : buildPayload env req.body = some payload) :
    validate env req payload
      = if payload.name = "" ∨ payload.email = "" ∨ payload.phone = ""
            ∨ payload.dateTime = "" then
          .respond ⟨400, .message "All reservation fields are required." none⟩
        else if payload.guests.lt (JsNum.fin 1) = true
            ∨ payload.guests.gt (JsNum.fin 10) = true then
          .respond ⟨400, .message "Guests must be between 1 and 10." none⟩
        else if payload.tableNumber.lt (JsNum.fin 1) = true
            ∨ payload.tableNumber.gt (JsNum.fin 50) = true then
          .respond ⟨400, .message "Table number must be between 1 and 50." none⟩
        else .next payload := by
  have hlog := logApiFailure_of_buildPayload env req payload hp
  unfold validate
  simp only [logged, hlog, if_true, Bool.or_eq_true]

theorem postReservations_of_invalid (env : Env) (srv : Server) (net : NetOutcomes) (db : Db)
    (req : Request) (payload : Payload) (r : Response)
    (hp : buildPayload env req.body = some payload)
    (hv : validate env req payload = .respond r) :
    postReservations env srv net db req = ⟨some r, db, []⟩ := by
  apply postReservations_of_respond
  unfold lookupStage
  rw [hp]
  dsimp only
  rw [hv]

/-! ## Lemmas on traces -/

theorem sendText_trace (cfg : Config) (net : NetResult) (recipient text : String) :
    ∀ e ∈ (WhatsAppService.sendText cfg net recipient text).trace, e.isPost = true := by
  unfold WhatsAppService.sendText
  dsimp only
  split
  · simp
  · split
    · simp
    · split <;> split <;> simp [Event.isPost]

theorem sendTemplate_trace (cfg : Config) (net : NetResult) (recipient templateName : String)
    (bodyVariables : List String) :
    ∀ e ∈ (WhatsAppService.sendTemplate cfg net recipient templateName bodyVariables).trace,
      e.isPost = true := by
  unfold WhatsAppService.sendTemplate
  dsimp only
  split
  · simp
  · split
    · simp
    · split <;> simp [Event.isPost]

theorem sendReservationNotification_trace (env : Env) (cfg : Config) (net : NetResult)
    (reservation : Payload) :
    ∀ e ∈ (WhatsAppService.sendReservationNotification env cfg net reservation).trace,
      e.isPost = true := by
  unfold WhatsAppService.sendReservationNotification
  split
  · simp
  · exact sendText_trace cfg net _ _

theorem sendReservationConfirmation_trace (env : Env) (cfg : Config) (net : NetResult)
    (reservation : Payload) :
    ∀ e ∈ (WhatsAppService.sendReservationConfirmation env cfg net reservation).trace,
      e.isPost = true := by
  unfold WhatsAppService.sendReservationConfirmation
  split
  · simp
  · dsimp only
    split
    · simp
    · split
      · split <;> exact sendTemplate_trace cfg net _ _ _
      · exact sendText_trace cfg net _ _

theorem notifyStage_trace (env : Env) (cfg : Config) (net : NetOutcomes) (payload : Payload) :
    ∀ e ∈ (notifyStage env cfg net payload).2, e.isPost = true := by
  unfold notifyStage
  split
  · intro e he
    rcases List.mem_append.1 he with h | h
    · exact sendReservationNotification_trace env cfg net.admin payload e h
    · exact sendReservationConfirmation_trace env cfg net.customer payload e h
  · simp

theorem sendsBetween_of_no_post (trace : List Event) (h : ∀ e ∈ trace, e.isPost = false) :
    SendsBetweenLookupAndInsert trace := by
  intro pre e post htr he
  have hmem : e ∈ trace := by rw [htr]; simp
  rw [h e hmem] at he
  cases he

theorem sendsBetween_of_shape (l ins : Event) (sends rest : List Event)
    (hl : l.isLookup = true) (hsends : ∀ e ∈ sends, e.isPost = true)
    (hins : ins.isInsert = true) (hrest : ∀ e ∈ rest, e.isInsert = true) :
    SendsBetweenLookupAndInsert (l :: (sends ++ ins :: rest)) := by
  have post_not_insert : ∀ e : Event, e.isPost = true → e.isInsert = false := by
    intro e he; cases e <;> simp_all [Event.isPost, Event.isInsert]
  have post_not_lookup : ∀ e : Event, e.isPost = true → e.isLookup = false := by
    intro e he; cases e <;> simp_all [Event.isPost, Event.isLookup]
  have lookup_not_insert : ∀ e : Event, e.isLookup = true → e.isInsert = false := by
    intro e he; cases e <;> simp_all [Event.isLookup, Event.isInsert]
  intro pre e post htr he
  cases pre with
  | nil =>
    simp only [List.nil_append, List.cons.injEq] at htr
    have hnot := post_not_lookup e he
    rw [← htr.1, hl] at hnot
    cases hnot
  | cons x pre =>
    simp only [List.cons_append, List.cons.injEq] at htr
    rcases htr with ⟨hx, htr⟩
    subst hx
    rcases List.append_eq_append_iff.1 htr with ⟨mid, hpre, htail⟩ | ⟨mid, hsplit, htail⟩
    · -- the provider request lies in the insert part: impossible
      have hmem : e ∈ ins :: rest := by rw [htail]; simp
      have : e.isInsert = true := by
        rcases List.mem_cons.1 hmem with h | h
        · rw [h]; exact hins
        · exact hrest e h
      rw [post_not_insert e he] at this
      cases this
    · cases mid with
      | nil =>
        simp only [List.nil_append] at htail
        have : e.isInsert = true := by
          have hmem : e ∈ ins :: rest := by rw [← htail]; simp
          rcases List.mem_cons.1 hmem with h | h
          · rw [h]; exact hins
          · exact hrest e h
        rw [post_not_insert e he] at this
        cases this
      | cons y mid =>
        simp only [List.cons_append, List.cons.injEq] at htail
        rcases htail with ⟨-, hpost⟩
        refine ⟨⟨l, by simp, hl⟩, ?_, ⟨ins, by rw [hpost]; simp, hins⟩⟩
        intro z hz
        rcases List.mem_cons.1 hz with h | h
        · rw [h]; exact lookup_not_insert l hl
        · exact post_not_insert z (hsends z (by rw [hsplit]; simp [h]))

theorem lookupStage_trace (env : Env) (db : Db) (req : Request) :
    ∀ e ∈ (lookupStage env db req).2, e.isPost = false := by
  unfold lookupStage
  split
  · simp
  · split
    · dsimp only
      split <;> simp [Event.isPost]
    · simp

theorem completeStage_trace (env : Env) (srv : Server) (net : NetOutcomes) (db : Db)
    (req : Request) (payload : Payload) :
    ∃ rest, (completeStage env srv net db req payload).trace
        = (notifyStage env srv.whatsapp net payload).2 ++ Event.insert payload :: rest
      ∧ ∀ e ∈ rest, e.isInsert = true := by
  cases hi : (insertReservation env db req.auth payload
      (notifyStage env srv.whatsapp net payload).1).1 with
  | error e =>
    rw [completeStage_of_error env srv net db req payload e hi]
    exact ⟨[], rfl, by simp⟩
  | ok id =>
    cases hk : getReservationWhatsAppLink env srv payload with
    | some link =>
      rw [completeStage_of_ok env srv net db req payload id link hi hk]
      exact ⟨[Event.inserted id], rfl, by simp [Event.isInsert]⟩
    | none =>
      rw [completeStage_of_link_error env srv net db req payload id hi hk]
      exact ⟨[Event.inserted id], rfl, by simp [Event.isInsert]⟩

/-! ## Lemmas on notifications -/

theorem insertReservation_result (env : Env) (db : Db) (auth : Option Auth)
    (payload : Payload) (d d' : NotificationStatus) :
    (insertReservation env db auth payload d).1
      = (insertReservation env db auth payload d').1 := by
  unfold insertReservation
  split
  · rfl
  · split
    · split <;> rfl
    · rfl

theorem delivery_of_catch (env : Env) (req : Request) (e : Thrown) (db : Db)
    (tr : List Event) : Outcome.delivery ⟨catchBlock env req e, db, tr⟩ = none := by
  unfold catchBlock
  by_cases h : logApiFailure env req = true <;> simp [h, Outcome.delivery]

theorem delivery_of_next (env : Env) (srv : Server) (net : NetOutcomes) (db : Db)
    (req : Request) (payload : Payload) (tr : List Event)
    (hl : lookupStage env db req = (.next payload, tr)) :
    (postReservations env srv net db req).delivery
      = match (insertReservation env db req.auth payload
            (notifyStage env srv.whatsapp net payload).1).1,
            getReservationWhatsAppLink env srv payload with
        | .ok _, some _ => some (notifyStage env srv.whatsapp net payload).1
        | _, _ => none := by
  rw [postReservations_of_next env srv net db req payload tr hl]
  cases hi : (insertReservation env db req.auth payload
      (notifyStage env srv.whatsapp net payload).1).1 with
  | error e =>
    rw [completeStage_of_error env srv net db req payload e hi]
    exact delivery_of_catch env req e _ _
  | ok id =>
    cases hk : getReservationWhatsAppLink env srv payload with
    | some link =>
      rw [completeStage_of_ok env srv net db req payload id link hi hk]
      rfl
    | none =>
      rw [completeStage_of_link_error env srv net db req payload id hi hk]
      exact delivery_of_catch env req _ _ _

theorem delivery_of_not_next (env : Env) (srv : Server) (net : NetOutcomes) (db : Db)
    (req : Request) (h : ∀ payload tr, lookupStage env db req ≠ (.next payload, tr)) :
    (postReservations env srv net db req).delivery = none := by
  cases hl : lookupStage env db req with
  | mk flow tr =>
    cases flow with
    | next payload => exact absurd hl (h payload tr)
    | respond r =>
      rw [postReservations_of_respond env srv net db req r tr hl]
      rcases lookupStage_respond env db req r tr hl with ⟨st, m, hr, -⟩
      rw [hr]
      rfl
    | throw e =>
      rw [postReservations_of_throw env srv net db req e tr hl]
      exact delivery_of_catch env req e _ _

theorem notifyStage_customer (env : Env) (cfg : Config) (a b c : NetResult)
    (payload : Payload) :
    (notifyStage env cfg ⟨a, c⟩ payload).1.customer
      = (notifyStage env cfg ⟨b, c⟩ payload).1.customer := by
  unfold notifyStage
  split <;> rfl

theorem notifyStage_admin (env : Env) (cfg : Config) (a c d : NetResult)
    (payload : Payload) :
    (notifyStage env cfg ⟨a, c⟩ payload).1.admin
      = (notifyStage env cfg ⟨a, d⟩ payload).1.admin := by
  unfold notifyStage
  split <;> rfl

/-! ## Lemmas on requests in flight -/

theorem advance_twice (env : Env) (srv : Server) (net : NetOutcomes) (db : Db)
    (req : Request) :
    (advance env srv (advance env srv db (.arrived req net)).2.1
        (advance env srv db (.arrived req net)).1).1
      = .finished (postReservations env srv net db req).response
    ∧ (advance env srv (advance env srv db (.arrived req net)).2.1
        (advance env srv db (.arrived req net)).1).2.1
      = (postReservations env srv net db req).db
    ∧ (advance env srv db (.arrived req net)).2.2
        ++ (advance env srv (advance env srv db (.arrived req net)).2.1
          (advance env srv db (.arrived req net)).1).2.2
      = (postReservations env srv net db req).trace := by
  cases hl : lookupStage env db req with
  | mk flow tr =>
    cases flow with
    | next payload =>
      rw [postReservations_of_next env srv net db req payload tr hl]
      simp [advance, hl]
    | respond r =>
      rw [postReservations_of_respond env srv net db req r tr hl]
      simp [advance, hl]
    | throw e =>
      rw [postReservations_of_throw env srv net db req e tr hl]
      simp [advance, hl]

theorem advance_noDoubleBooking (env : Env) (srv : Server) (db : Db) (r : InFlight)
    (h : NoDoubleBooking db) : NoDoubleBooking (advance env srv db r).2.1 := by
  cases r with
  | arrived req net =>
    simp only [advance]
    split <;> exact h
  | lookedUp req net payload =>
    simp only [advance]
    rw [completeStage_db]
    exact insertReservation_noDoubleBooking env db req.auth payload _ h
  | finished response => exact h

theorem run_noDoubleBooking (env : Env) (srv : Server) (s : System) (schedule : List Nat)
    (h : NoDoubleBooking s.db) : NoDoubleBooking (System.run env srv s schedule).db := by
  unfold System.run
  induction schedule generalizing s with
  | nil => exact h
  | cons i rest ih =>
    rw [List.foldl_cons]
    apply ih
    unfold System.step
    split
    · exact h
    · exact advance_noDoubleBooking env srv s.db _ h

/-! ## Lemmas on phone numbers -/

theorem digit_toNat (c : Char) (h : isAsciiDigit c = true) : 48 ≤ c.toNat ∧ c.toNat ≤ 57 := by
  unfold isAsciiDigit at h
  rw [decide_eq_true_iff] at h
  rcases h with ⟨h1, h2⟩
  have h1' : ('0' : Char).val ≤ c.val := h1
  have h2' : c.val ≤ ('9' : Char).val := h2
  rw [UInt32.le_def] at h1' h2'
  exact ⟨h1', h2'⟩

theorem digit_not_whiteSpace (c : Char) (h : isAsciiDigit c = true) :
    isJsWhiteSpace c = false := by
  have hn := digit_toNat c h
  unfold isJsWhiteSpace
  simp only [Bool.or_eq_false_iff, Bool.and_eq_false_iff, beq_eq_false_iff_ne, ne_eq,
    decide_eq_false_iff_not]
  omega

theorem rdropWhile_cons_of_neg {α : Type} (p : α → Bool) (a : α) (l : List α)
    (h : p a = false) : (a :: l).rdropWhile p = a :: l.rdropWhile p := by
  induction l using List.reverseRecOn generalizing a with
  | nil => simp [List.rdropWhile, h]
  | append_singleton l x ih =>
    rw [← List.cons_append]
    by_cases hx : p x = true
    · rw [List.rdropWhile_concat_pos _ _ _ hx, List.rdropWhile_concat_pos _ _ _ hx]
      exact ih a h
    · rw [List.rdropWhile_concat_neg _ _ _ hx, List.rdropWhile_concat_neg _ _ _ hx]
      rfl

theorem filter_dropWhile {α : Type} (p q : α → Bool) (l : List α)
    (h : ∀ a, q a = true → p a = false) : (l.dropWhile p).filter q = l.filter q := by
  induction l with
  | nil => rfl
  | cons a l ih =>
    by_cases hp : p a = true
    · have hq : q a = false := by
        cases hqa : q a with
        | false => rfl
        | true => rw [h a hqa] at hp; cases hp
      rw [List.dropWhile_cons_of_pos hp, ih, List.filter_cons_of_neg (by simp [hq])]
    · rw [List.dropWhile_cons_of_neg hp]

theorem filter_rdropWhile {α : Type} (p q : α → Bool) (l : List α)
    (h : ∀ a, q a = true → p a = false) : (l.rdropWhile p).filter q = l.filter q := by
  unfold List.rdropWhile
  rw [List.filter_reverse, filter_dropWhile p q _ h, List.filter_reverse, List.reverse_reverse]

theorem stripNonDigits_jsTrim (s : String) : stripNonDigits (jsTrim s) = stripNonDigits s := by
  unfold stripNonDigits jsTrim
  simp only
  rw [filter_rdropWhile _ _ _ digit_not_whiteSpace, filter_dropWhile _ _ _ digit_not_whiteSpace]

theorem stripNonDigits_plus (body : String) :
    stripNonDigits ("+" ++ body) = stripNonDigits body := by
  unfold stripNonDigits
  rw [String.data_append]
  rfl

theorem stripNonDigits_of_digits (s : String) (h : DigitsOnly s) : stripNonDigits s = s := by
  unfold stripNonDigits
  rw [List.filter_eq_self.2 h]

theorem digitsOnly_stripNonDigits (s : String) : DigitsOnly (stripNonDigits s) := by
  intro c hc
  unfold stripNonDigits at hc
  exact (List.mem_filter.1 hc).2

theorem digitsOnly_append (s t : String) (hs : DigitsOnly s) (ht : DigitsOnly t) :
    DigitsOnly (s ++ t) := by
  intro c hc
  rw [String.data_append, List.mem_append] at hc
  rcases hc with h | h
  · exact hs c h
  · exact ht c h

theorem jsTrim_plus (body : String) :
    jsTrim ("+" ++ body) = "+" ++ String.mk (body.data.rdropWhile isJsWhiteSpace) := by
  unfold jsTrim
  apply String.ext
  rw [String.data_append]
  show List.rdropWhile isJsWhiteSpace
      (List.dropWhile isJsWhiteSpace ('+' :: body.data)) = '+' :: _
  rw [List.dropWhile_cons_of_neg (by decide), rdropWhile_cons_of_neg _ _ _ (by decide)]
  rfl

theorem normalizePhoneNumber_plus (body cc : String) :
    normalizePhoneNumber ("+" ++ body) cc = "+" ++ stripNonDigits body := by
  have htrim := jsTrim_plus body
  have hne : jsTrim ("+" ++ body) ≠ "" := by
    rw [htrim]
    intro h
    have := congrArg String.data h
    rw [String.data_append] at this
    cases this
  have hhead : (jsTrim ("+" ++ body)).data.head? = some '+' := by
    rw [htrim, String.data_append]
    rfl
  unfold normalizePhoneNumber
  simp only [hne, hhead, if_true, if_false]
  rw [stripNonDigits_jsTrim, stripNonDigits_plus]

theorem normalizePhoneNumber_cases (x cc : String) :
    normalizePhoneNumber x cc = ""
    ∨ normalizePhoneNumber x cc = "+" ++ stripNonDigits x
    ∨ normalizePhoneNumber x cc = "+" ++ (cc ++ stripNonDigits x) := by
  unfold normalizePhoneNumber
  simp only [stripNonDigits_jsTrim]
  split
  · exact Or.inl rfl
  · split
    · exact Or.inr (Or.inl rfl)
    · split
      · exact Or.inl rfl
      · split
        · exact Or.inr (Or.inr (String.append_assoc _ _ _))
        · exact Or.inr (Or.inl rfl)

theorem normalizePhoneNumber_empty (cc : String) : normalizePhoneNumber "" cc = "" := by
  unfold normalizePhoneNumber
  have : jsTrim "" = "" := by decide
  simp [this]

theorem plus_ne_empty (body : String) : "+" ++ body ≠ "" := by
  intro h
  have := congrArg String.data h
  rw [String.data_append] at this
  cases this

theorem normalizePhoneNumber_again_ne (x cc other : String)
    (h : normalizePhoneNumber x cc ≠ "") :
    normalizePhoneNumber (normalizePhoneNumber x cc) other ≠ "" := by
  rcases normalizePhoneNumber_cases x cc with h0 | h1 | h2
  · exact absurd h0 h
  · rw [h1, normalizePhoneNumber_plus]; exact plus_ne_empty _
  · rw [h2, normalizePhoneNumber_plus]; exact plus_ne_empty _

theorem isDigit_eq (c : Char) : c.isDigit = isAsciiDigit c := by
  unfold Char.isDigit isAsciiDigit
  rw [Bool.eq_iff_iff]
  simp only [Bool.and_eq_true, decide_eq_true_eq, ge_iff_le]
  constructor
  · rintro ⟨h1, h2⟩
    exact ⟨h1, h2⟩
  · rintro ⟨h1, h2⟩
    exact ⟨h1, h2⟩

theorem digitCharacters_eq (t : String) : digitCharacters t = stripNonDigits t := by
  unfold digitCharacters stripNonDigits
  congr 1
  apply List.filter_congr
  intro c _
  exact isDigit_eq c

theorem length_zero_iff (t : String) : t.length = 0 ↔ t = "" := by
  constructor
  · intro h
    apply String.ext
    exact List.length_eq_zero.1 h
  · intro h
    rw [h]
    rfl

theorem front_plus_iff (t : String) (h : t ≠ "") :
    t.front = '+' ↔ t.data.head? = some '+' := by
  rw [String.front_eq]
  cases hd : t.data with
  | nil => exact absurd (String.ext hd) h
  | cons a l => simp

/-! ## Lemmas on delivery entries -/

theorem sendText_shape (cfg : Config) (net : NetResult) (recipient text : String)
    (hen : WhatsAppService.isEnabled cfg = true) :
    (recoverSend (WhatsAppService.sendText cfg net recipient text)).HasShape
      knownReasons := by
  unfold WhatsAppService.sendText
  dsimp only
  split
  · simp [recoverSend, DeliveryStatus.HasShape, knownReasons, listedReasons]
  · split
    · simp_all
    · split
      · cases net <;> simp [recoverSend, DeliveryStatus.HasShape, knownReasons, listedReasons]
      · cases net <;> simp [recoverSend, DeliveryStatus.HasShape, knownReasons, listedReasons]

theorem sendTemplate_shape (cfg : Config) (net : NetResult) (recipient name : String)
    (vars : List String) (hmeta : cfg.provider = "meta") :
    match (WhatsAppService.sendTemplate cfg net recipient name vars).result with
    | .ok status => status.HasShape knownReasons
    | .error _ => True := by
  by_cases hn : normalizePhoneNumber recipient cfg.defaultCountryCode = ""
  · simp [WhatsAppService.sendTemplate, hn, DeliveryStatus.HasShape, knownReasons, listedReasons]
  · cases net <;> simp [WhatsAppService.sendTemplate, hn, hmeta, DeliveryStatus.HasShape, knownReasons]

theorem notifyStage_shape (env : Env) (cfg : Config) (net : NetOutcomes) (payload : Payload) :
    (notifyStage env cfg net payload).1.admin.HasShape knownReasons
    ∧ (notifyStage env cfg net payload).1.customer.HasShape
        knownReasons := by
  unfold notifyStage
  split
  · next hen =>
    dsimp only
    constructor
    · unfold WhatsAppService.sendReservationNotification
      split
      · simp [recoverSend, DeliveryStatus.HasShape, knownReasons]
      · exact sendText_shape cfg net.admin _ _ hen
    · unfold WhatsAppService.sendReservationConfirmation
      split
      · simp [recoverSend, DeliveryStatus.HasShape, knownReasons, listedReasons]
      · dsimp only
        split
        · simp [recoverSend, DeliveryStatus.HasShape, knownReasons, listedReasons]
        · split
          · next hm =>
            have h := sendTemplate_shape cfg net.customer
              (normalizePhoneNumber payload.phone cfg.defaultCountryCode)
              cfg.reservationTemplateName
              [payload.name, env.numToStr payload.tableNumber, payload.dateTime,
                env.numToStr payload.guests] hm.1
            split
            · next status hs =>
              rw [hs] at h
              simpa [recoverSend] using h
            · simp [recoverSend, DeliveryStatus.HasShape, knownReasons, listedReasons]
          · exact sendText_shape cfg net.customer _ _ hen
  · simp [DeliveryStatus.HasShape, knownReasons, listedReasons]

/-! ## Lemmas on intents and signatures -/

theorem includesWord_iff (input word : List Char) :
    includesWord input word = true ↔ word <:+: input := by
  unfold includesWord
  rw [List.any_eq_true, List.infix_iff_prefix_suffix]
  constructor
  · rintro ⟨rest, hmem, hpre⟩
    exact ⟨rest, List.isPrefixOf_iff_prefix.1 hpre, (List.mem_tails _ _).1 hmem⟩
  · rintro ⟨rest, hpre, hsuf⟩
    exact ⟨rest, (List.mem_tails _ _).2 hsuf, List.isPrefixOf_iff_prefix.2 hpre⟩

theorem regexTest_eq (name : String) (words : List String) (input : String) :
    decide (keywordOccurs input (name, words)) = regexTest words input := by
  rw [Bool.eq_iff_iff]
  unfold keywordOccurs regexTest
  simp only [decide_eq_true_eq, List.any_eq_true, includesWord_iff]

theorem shouldVerify_false_iff (cfg : Config) :
    WhatsAppService.shouldVerifyMetaSignature cfg = false
      ↔ cfg.provider ≠ "meta" ∨ cfg.metaAppSecret = "" := by
  unfold WhatsAppService.shouldVerifyMetaSignature
  by_cases h1 : cfg.provider = "meta" <;> by_cases h2 : cfg.metaAppSecret = "" <;> simp [h1, h2]

theorem stripSha256Prefix_signed (digest : String) :
    stripSha256Prefix ("sha256=" ++ digest) = digest := by
  unfold stripSha256Prefix
  rw [String.data_append]
  have hpre : "sha256=".data.isPrefixOf ("sha256=".data ++ digest.data) = true :=
    List.isPrefixOf_iff_prefix.2 (List.prefix_append _ _)
  rw [if_pos hpre]
  apply String.ext
  show List.drop 7 ("sha256=".data ++ digest.data) = digest.data
  exact List.drop_left' (by decide)

theorem verify_signed_header (crypto : Crypto) (cfg : Config) (body other : String)
    (hcfg : cfg.provider = "meta" ∧ cfg.metaAppSecret ≠ "")
    (hdigest : jsTrim (crypto.hmacSha256Hex cfg.metaAppSecret body)
      = crypto.hmacSha256Hex cfg.metaAppSecret body) :
    WhatsAppService.verifyMetaSignature crypto cfg (some other)
        (some ("sha256=" ++ crypto.hmacSha256Hex cfg.metaAppSecret body)) = true
      ↔ other ≠ "" ∧ crypto.hmacSha256Hex cfg.metaAppSecret other
          = crypto.hmacSha256Hex cfg.metaAppSecret body := by
  have hne : "sha256=" ++ crypto.hmacSha256Hex cfg.metaAppSecret body ≠ "" := by
    intro h
    have := congrArg String.data h
    rw [String.data_append] at this
    cases this
  have hs : WhatsAppService.shouldVerifyMetaSignature cfg = true := by
    simp [WhatsAppService.shouldVerifyMetaSignature, hcfg.1, hcfg.2]
  unfold WhatsAppService.verifyMetaSignature
  simp only [hs, Bool.not_true, Bool.false_eq_true, if_false, hne, or_false,
    stripSha256Prefix_signed, hdigest]
  by_cases hb : other = ""
  · simp [hb]
  · simp only [hb, if_false, ne_eq, not_false_eq_true, true_and]
    constructor
    · intro h
      split at h
      · cases h
      · exact of_decide_eq_true h
    · intro h
      rw [h]
      simp

/-! ## Lemmas on the bot and on deliveries -/

theorem buildBotReply_fst (env : Env) (cfg : Config) (ai : AiOutcome) (clock : Clock)
    (sessions : Sessions) (sender text : String) :
    (WhatsAppService.buildBotReply env cfg ai clock sessions sender text).1
      = botReplyText env cfg ai text := rfl

theorem sendText_reply (cfg : Config) (messageId sender text : String)
    (hs : normalizePhoneNumber sender cfg.defaultCountryCode ≠ "") :
    (∃ status, (WhatsAppService.sendText cfg (.ok messageId) sender text).result = .ok status)
    ∧ (WhatsAppService.sendText cfg (.ok messageId) sender text).trace
        = if WhatsAppService.isEnabled cfg then [replyRequest cfg (sender, text)] else [] := by
  by_cases hen : WhatsAppService.isEnabled cfg = true
  · by_cases hm : cfg.provider = "meta"
    · simp [WhatsAppService.sendText, hs, hen, hm, replyRequest]
    · simp [WhatsAppService.sendText, hs, hen, hm, replyRequest]
  · simp [WhatsAppService.sendText, hs, hen]


theorem processMessages_skip (env : Env) (cfg : Config) (oracle : Nat → MessageOracle)
    (index : Nat) (message : Option IncomingMessage) (rest : List (Option IncomingMessage))
    (sessions : Sessions)
    (hskip : messageSender message = "" ∨ getTextFromIncomingMessage message = "") :
    processMessages env cfg oracle index (message :: rest) sessions
      = processMessages env cfg oracle (index + 1) rest sessions := by
  rw [processMessages]
  simp only [hskip, if_true]

theorem processMessages_step (env : Env) (cfg : Config) (oracle : Nat → MessageOracle)
    (index : Nat) (message : Option IncomingMessage) (rest : List (Option IncomingMessage))
    (sessions : Sessions) (status : DeliveryStatus)
    (hskip : ¬ (messageSender message = "" ∨ getTextFromIncomingMessage message = ""))
    (hres : (WhatsAppService.sendText cfg (oracle index).net (messageSender message)
        (botReplyText env cfg (oracle index).ai (getTextFromIncomingMessage message))).result
      = .ok status) :
    processMessages env cfg oracle index (message :: rest) sessions
      = ⟨(processMessages env cfg oracle (index + 1) rest
            (WhatsAppService.buildBotReply env cfg (oracle index).ai (oracle index).clock
              sessions (messageSender message)
              (getTextFromIncomingMessage message)).2).result.map (fun n => n + 1),
          (processMessages env cfg oracle (index + 1) rest
            (WhatsAppService.buildBotReply env cfg (oracle index).ai (oracle index).clock
              sessions (messageSender message)
              (getTextFromIncomingMessage message)).2).sessions,
          (messageSender message,
            botReplyText env cfg (oracle index).ai (getTextFromIncomingMessage message))
            :: (processMessages env cfg oracle (index + 1) rest
              (WhatsAppService.buildBotReply env cfg (oracle index).ai
                (oracle index).clock sessions (messageSender message)
                (getTextFromIncomingMessage message)).2).replies,
          (WhatsAppService.sendText cfg (oracle index).net (messageSender message)
            (botReplyText env cfg (oracle index).ai
              (getTextFromIncomingMessage message))).trace
            ++ (processMessages env cfg oracle (index + 1) rest
              (WhatsAppService.buildBotReply env cfg (oracle index).ai
                (oracle index).clock sessions (messageSender message)
                (getTextFromIncomingMessage message)).2).trace⟩ := by
  rw [processMessages]
  simp only [if_neg hskip, buildBotReply_fst]
  rw [hres]


theorem processMessages_spec (env : Env) (cfg : Config) (oracle : Nat → MessageOracle)
    (hnet : ∀ i, ∃ messageId, (oracle i).net = .ok messageId)
    (messages : List (Option IncomingMessage)) :
    ∀ (index : Nat) (sessions : Sessions),
      (processMessages env cfg oracle index messages sessions).result
        = .ok (processableFrom index messages).length
      ∧ (processMessages env cfg oracle index messages sessions).replies
        = expectedReplies env cfg oracle index messages
      ∧ (processMessages env cfg oracle index messages sessions).sessions
        = expectedSessions env cfg oracle index messages sessions
      ∧ (processMessages env cfg oracle index messages sessions).trace
        = if WhatsAppService.isEnabled cfg then
            (processMessages env cfg oracle index messages sessions).replies.map
              (replyRequest cfg)
          else [] := by
  induction messages with
  | nil =>
    intro index sessions
    simp [processMessages, processableFrom, expectedReplies, expectedSessions]
  | cons message rest ih =>
    intro index sessions
    by_cases hskip : messageSender message = "" ∨ getTextFromIncomingMessage message = ""
    · have hp : processable message = false := by
        unfold processable
        rcases hskip with h | h <;> simp [h]
      have hfrom : processableFrom index (message :: rest)
          = processableFrom (index + 1) rest := by
        simp [processableFrom, List.enumFrom_cons, hp]
      rw [processMessages_skip env cfg oracle index message rest sessions hskip]
      unfold expectedReplies expectedSessions
      rw [hfrom]
      exact ih (index + 1) sessions
    · have hsender : messageSender message ≠ "" := fun h => hskip (Or.inl h)
      have htext : getTextFromIncomingMessage message ≠ "" := fun h => hskip (Or.inr h)
      have hp : processable message = true := by
        simp [processable, hsender, htext]
      have hfrom : processableFrom index (message :: rest)
          = (index, message) :: processableFrom (index + 1) rest := by
        simp [processableFrom, List.enumFrom_cons, hp]
      rcases hnet index with ⟨messageId, hid⟩
      have hagain : normalizePhoneNumber (messageSender message) cfg.defaultCountryCode ≠ "" :=
        normalizePhoneNumber_again_ne _ "91" _ hsender
      rcases sendText_reply cfg messageId (messageSender message)
        (botReplyText env cfg (oracle index).ai (getTextFromIncomingMessage message))
        hagain with ⟨⟨status, hres⟩, htrace⟩
      rw [← hid] at hres htrace
      rcases ih (index + 1)
        (WhatsAppService.buildBotReply env cfg (oracle index).ai (oracle index).clock sessions
          (messageSender message) (getTextFromIncomingMessage message)).2
        with ⟨h1, h2, h3, h4⟩
      rw [processMessages_step env cfg oracle index message rest sessions status hskip hres]
      unfold expectedReplies at h2
      unfold expectedSessions at h3
      unfold expectedReplies expectedSessions
      rw [hfrom]
      refine ⟨?_, ?_, ?_, ?_⟩
      · simp only [h1]
        rfl
      · simp only [h2, List.map_cons]
      · simp only [h3, List.foldl_cons]
      · simp only [htrace, h4]
        by_cases hen : WhatsAppService.isEnabled cfg = true
        · simp [hen]
        · simp [hen]

theorem processableFrom_snd (index : Nat) (messages : List (Option IncomingMessage)) :
    (processableFrom index messages).map Prod.snd = messages.filter processable := by
  induction messages generalizing index with
  | nil => rfl
  | cons message rest ih =>
    unfold processableFrom at ih ⊢
    rw [List.enumFrom_cons]
    by_cases hp : processable message = true
    · rw [List.filter_cons_of_pos (by simpa using hp), List.filter_cons_of_pos hp,
        List.map_cons, ih (index + 1)]
    · rw [List.filter_cons_of_neg (by simpa using hp), List.filter_cons_of_neg hp,
        ih (index + 1)]

theorem normalizePhoneNumber_shape (x cc : String) (hcc : DigitsOnly cc) :
    normalizePhoneNumber x cc = ""
    ∨ ∃ digits, normalizePhoneNumber x cc = "+" ++ digits ∧ DigitsOnly digits := by
  rcases normalizePhoneNumber_cases x cc with h | h | h
  · exact Or.inl h
  · exact Or.inr ⟨_, h, digitsOnly_stripNonDigits x⟩
  · exact Or.inr ⟨_, h, digitsOnly_append _ _ hcc (digitsOnly_stripNonDigits x)⟩

theorem catchBlock_detail (env : Env) (req : Request) (e : Thrown) (r : Response)
    (h : catchBlock env req e = some r) :
    r = ⟨500, .message "Failed to create reservation" (some e)⟩ := by
  unfold catchBlock at h
  split at h
  · cases h; rfl
  · cases h

/-! ## The claims -/

/-- C1: starting from a store in which no two reservations share a (table number, slot) pair,
every sequence of booking requests handled one after another leaves a store with at most one
reservation per (table number, slot) pair. -/
theorem serveAll_noDoubleBooking (env : Env) (srv : Server) (db : Db)
    (requests : List (Request × NetOutcomes)) (h : NoDoubleBooking db) :
    NoDoubleBooking (serveAll env srv db requests) := by
  unfold serveAll
  induction requests generalizing db with
  | nil => exact h
  | cons rn rest ih =>
    rw [List.foldl_cons]
    exact ih _ (postReservations_noDoubleBooking env srv rn.2 db rn.1 h)

/-- Witness of C1: the scenario request served twice on the empty store. -/
theorem serveAll_noDoubleBooking_witness :
    NoDoubleBooking emptyDb
    ∧ NoDoubleBooking (serveAll sampleEnv (sampleServer "meta" "+917858062571") emptyDb
        [(sampleRequest, bothDelivered), (sampleRequest, bothDelivered)]) :=
  ⟨List.nodup_nil, serveAll_noDoubleBooking _ _ _ _ List.nodup_nil⟩

/-- C2: two booking requests for table 12 at slot `2025-06-01T19:00` in flight together, both
lookups taking place before either insert: the first request is answered `201`, the second
`500` (and not `409`), so the interleaving does not give one success and one
`ConflictError`. -/
theorem concurrent_same_slot_statuses :
    (System.run sampleEnv (sampleServer "none" "")
        ⟨emptyDb, [.arrived sampleRequest bothDelivered, .arrived sampleRequest bothDelivered], []⟩
        [0, 1, 0, 1]).statuses
      = [some 201, some 500] := by
  decide

/-- C3: when the conflict lookup of a request has found no reservation (on the store `seen`
at that moment) and its insert is then rejected by the unique index on (table_number,
date_time) (on the store `db` at the moment of the insert), the handler answers through its
`catch` block: `500` with the message `Failed to create reservation`, not the `409` of the
lookup path. -/
theorem unique_violation_answers_500 (env : Env) (srv : Server) (net : NetOutcomes)
    (seen db : Db) (req : Request) (payload : Payload) (tr : List Event)
    (hl : lookupStage env seen req = (.next payload, tr))
    (hins : (insertReservation env db req.auth payload
        (notifyStage env srv.whatsapp net payload).1).1 = .error Thrown.pgUniqueViolation) :
    (completeStage env srv net db req payload).response
      = some ⟨500, .message "Failed to create reservation" (some Thrown.pgUniqueViolation)⟩ := by
  have hlog := logApiFailure_of_buildPayload env req payload
    (lookupStage_next env seen req payload tr hl).1
  rw [completeStage_of_error env srv net db req payload _ hins]
  simp only [catchBlock, hlog, if_true]

/-- Witness of C3: the scenario request makes its lookup on the empty store and reaches its
insert after the same slot was booked. -/
theorem unique_violation_answers_500_witness :
    lookupStage sampleEnv emptyDb sampleRequest
      = (.next samplePayload, [Event.lookup (JsNum.fin 12) "2025-06-01T19:00"])
    ∧ (completeStage sampleEnv (sampleServer "none" "") bothDelivered bookedDb sampleRequest
        samplePayload).response
      = some ⟨500, .message "Failed to create reservation" (some Thrown.pgUniqueViolation)⟩ :=
  ⟨by decide,
    unique_violation_answers_500 sampleEnv _ _ emptyDb bookedDb sampleRequest samplePayload
      [Event.lookup (JsNum.fin 12) "2025-06-01T19:00"] (by decide) (by rfl)⟩

/-- C4: a booking request that passes validation and whose (tableNumber, dateTime) pair
already has a reservation in the store is answered `409`, the store is left as it was and
the only effect is the lookup: no insert and no provider request. In particular a request
answered `201`, repeated unchanged on the resulting store, is answered `409`. -/
theorem booked_slot_answers_409 :
    (∀ (env : Env) (srv : Server) (net : NetOutcomes) (db : Db) (req : Request)
        (payload : Payload),
        buildPayload env req.body = some payload →
        validate env req payload = .next payload →
        (∃ r ∈ db.rows, pgInt4 payload.tableNumber = some r.tableNumber
          ∧ env.parseTimestamp payload.dateTime = some r.dateTime) →
        postReservations env srv net db req
          = ⟨some ⟨409, .message "Table is already reserved for this slot." none⟩, db,
              [Event.lookup payload.tableNumber payload.dateTime]⟩)
    ∧ (∀ (env : Env) (srv : Server) (net again : NetOutcomes) (db : Db) (req : Request),
        (postReservations env srv net db req).response.map (fun r => r.status) = some 201 →
        (postReservations env srv again (postReservations env srv net db req).db req).response
          = some ⟨409, .message "Table is already reserved for this slot." none⟩) := by
  have first : ∀ (env : Env) (srv : Server) (net : NetOutcomes) (db : Db) (req : Request)
      (payload : Payload),
      buildPayload env req.body = some payload →
      validate env req payload = .next payload →
      (∃ r ∈ db.rows, pgInt4 payload.tableNumber = some r.tableNumber
        ∧ env.parseTimestamp payload.dateTime = some r.dateTime) →
      postReservations env srv net db req
        = ⟨some ⟨409, .message "Table is already reserved for this slot." none⟩, db,
            [Event.lookup payload.tableNumber payload.dateTime]⟩ := by
    intro env srv net db req payload hp hv hex
    rcases hex with ⟨r, hr, ht, hts⟩
    exact postReservations_of_respond env srv net db req _ _
      (lookupStage_of_conflict env db req payload hp hv r hr ht hts)
  refine ⟨first, ?_⟩
  intro env srv net again db req h
  rcases postReservations_created env srv net db req h with ⟨payload, tr, id, hl, hi, -⟩
  rcases lookupStage_next env db req payload tr hl with ⟨hp, hv, -, -⟩
  have hdb : (postReservations env srv net db req).db
      = (insertReservation env db req.auth payload
          (notifyStage env srv.whatsapp net payload).1).2 := by
    rw [postReservations_of_next env srv net db req payload tr hl]
    exact completeStage_db env srv net db req payload
  rcases insertReservation_cases env db req.auth payload
      (notifyStage env srv.whatsapp net payload).1 with
    ⟨e, he, -⟩ | ⟨row, t, ts, -, hrows, hkey, ht, hts, -⟩
  · rw [he] at hi; cases hi
  · have hrow : row.tableNumber = t ∧ row.dateTime = ts := by
      simpa [Reservation.slotKey] using hkey
    rw [first env srv again _ req payload hp hv
      ⟨row, by rw [hdb, hrows]; simp, by rw [hrow.1]; exact ht, by rw [hrow.2]; exact hts⟩]

/-- Witness of C4: the scenario request on a store that holds its slot, and on the store left
by its first, successful run. -/
theorem booked_slot_answers_409_witness :
    postReservations sampleEnv (sampleServer "meta" "+917858062571") bothDelivered bookedDb
        sampleRequest
      = ⟨some ⟨409, .message "Table is already reserved for this slot." none⟩, bookedDb,
          [Event.lookup (JsNum.fin 12) "2025-06-01T19:00"]⟩
    ∧ (postReservations sampleEnv (sampleServer "meta" "+917858062571") bothDelivered emptyDb
        sampleRequest).response.map (fun r => r.status) = some 201
    ∧ (postReservations sampleEnv (sampleServer "meta" "+917858062571") bothDelivered
        (postReservations sampleEnv (sampleServer "meta" "+917858062571") bothDelivered emptyDb
          sampleRequest).db sampleRequest).response
      = some ⟨409, .message "Table is already reserved for this slot." none⟩ :=
  ⟨booked_slot_answers_409.1 sampleEnv _ _ bookedDb sampleRequest samplePayload (by decide)
      (by decide) ⟨bookedRow, by decide, by decide, by decide⟩,
    by decide, booked_slot_answers_409.2 _ _ _ _ _ _ (by decide)⟩

/-- C5, as stated, fails: with the required fields present and the submitted guests value
`0`, outside [1,10], the handler does not answer `400`; `Number(guests || 1)` is `1`, the
request is answered `201` and a reservation for one guest is inserted. -/
theorem zero_guests_is_booked :
    (postReservations sampleEnv (sampleServer "meta" "+917858062571") bothDelivered emptyDb
        ⟨sampleBody (JsVal.num (JsNum.fin 0)) (JsVal.num (JsNum.fin 12)), none⟩).response.map
          (fun r => r.status) = some 201
    ∧ (postReservations sampleEnv (sampleServer "meta" "+917858062571") bothDelivered emptyDb
        ⟨sampleBody (JsVal.num (JsNum.fin 0)) (JsVal.num (JsNum.fin 12)), none⟩).db.rows.map
          (fun r => r.guests) = [1] := by
  decide

/-- C5, amended: for every booking request whose required fields are present and whose
coerced guest count `Number(guests || 1)` compares below 1 or above 10, the handler answers
`400` with the guest-count message, leaves the store as it was and has no effect at all: no
lookup, no insert, no provider request. -/
theorem guests_out_of_range_answers_400 (env : Env) (srv : Server) (net : NetOutcomes)
    (db : Db) (req : Request) (payload : Payload)
    (hp : buildPayload env req.body = some payload)
    (hfields : payload.name ≠ "" ∧ payload.email ≠ "" ∧ payload.phone ≠ ""
      ∧ payload.dateTime ≠ "")
    (hguests : payload.guests.lt (JsNum.fin 1) = true ∨ payload.guests.gt (JsNum.fin 10) = true) :
    postReservations env srv net db req
      = ⟨some ⟨400, .message "Guests must be between 1 and 10." none⟩, db, []⟩ := by
  have hlog := logApiFailure_of_buildPayload env req payload hp
  have hfields2 : ¬ (payload.name = "" ∨ payload.email = "" ∨ payload.phone = ""
      ∨ payload.dateTime = "") := by
    rintro (h | h | h | h)
    · exact hfields.1 h
    · exact hfields.2.1 h
    · exact hfields.2.2.1 h
    · exact hfields.2.2.2 h
  have hg : (payload.guests.lt (JsNum.fin 1) || payload.guests.gt (JsNum.fin 10)) = true := by
    rcases hguests with h | h <;> simp [h]
  have hv : validate env req payload
      = .respond ⟨400, .message "Guests must be between 1 and 10." none⟩ := by
    unfold validate
    rw [if_neg hfields2, if_pos hg]
    simp only [logged, hlog, if_true]
  apply postReservations_of_respond
  unfold lookupStage
  rw [hp]
  dsimp only
  rw [hv]

/-- Witness of C5, amended: the scenario request with eleven guests. -/
theorem guests_out_of_range_answers_400_witness :
    postReservations sampleEnv (sampleServer "meta" "+917858062571") bothDelivered emptyDb
        ⟨sampleBody (JsVal.num (JsNum.fin 11)) (JsVal.num (JsNum.fin 12)), none⟩
      = ⟨some ⟨400, .message "Guests must be between 1 and 10." none⟩, emptyDb, []⟩ :=
  guests_out_of_range_answers_400 sampleEnv _ _ _ _
    { samplePayload with guests := JsNum.fin 11 } (by decide) (by decide) (Or.inr (by decide))

/-- C6: for the body of the scenario with `guests: "abc"`, `Number("abc")` is `NaN`, both
comparisons of the guests check are false and the handler proceeds to the conflict lookup
with a guest count that is not between 1 and 10; likewise with `tableNumber: "abc"` the
lookup is issued with a table number that is not between 1 and 50. -/
theorem nonnumeric_guests_reach_lookup :
    lookupStage sampleEnv emptyDb
        ⟨sampleBody (JsVal.str "abc") (JsVal.num (JsNum.fin 12)), none⟩
      = (.next { samplePayload with guests := JsNum.nan },
          [Event.lookup (JsNum.fin 12) "2025-06-01T19:00"])
    ∧ lookupStage sampleEnv emptyDb
        ⟨sampleBody (JsVal.num (JsNum.fin 4)) (JsVal.str "abc"), none⟩
      = (.throw Thrown.pgInvalidInteger, [Event.lookup JsNum.nan "2025-06-01T19:00"]) := by
  decide

/-- C7: the body of the scenario with `guests: "abc"` fails the check `guests in [1,10]`, yet
with table 12 the handler makes the lookup, sends both notifications, issues the insert and
answers `500`, and with table 99 it answers with the `400` of the table check, not with the
one of the guests check. -/
theorem nonnumeric_guests_skip_guest_check :
    ((postReservations sampleEnv (sampleServer "meta" "+917858062571") bothDelivered emptyDb
        ⟨sampleBody (JsVal.str "abc") (JsVal.num (JsNum.fin 12)), none⟩).response
      = some ⟨500, .message "Failed to create reservation" (some Thrown.pgInvalidInteger)⟩
    ∧ (postReservations sampleEnv (sampleServer "meta" "+917858062571") bothDelivered emptyDb
        ⟨sampleBody (JsVal.str "abc") (JsVal.num (JsNum.fin 12)), none⟩).trace.map
          (fun e => (e.isLookup, e.isPost, e.isInsert))
      = [(true, false, false), (false, true, false), (false, true, false),
          (false, false, true)])
    ∧ (postReservations sampleEnv (sampleServer "meta" "+917858062571") bothDelivered emptyDb
        ⟨sampleBody (JsVal.str "abc") (JsVal.num (JsNum.fin 99)), none⟩).response
      = some ⟨400, .message "Table number must be between 1 and 50." none⟩ := by
  decide

/-- C8, as stated, fails: in the run of the scenario request on the empty store with the
cloud provider and an admin number configured, the two provider requests are made before
the insert, so not every send attempt is preceded by a successful insert. -/
theorem sends_not_after_insert :
    ¬ SendsAfterInsert
      (postReservations sampleEnv (sampleServer "meta" "+917858062571") bothDelivered emptyDb
        sampleRequest).trace := by
  intro h
  have htr : (postReservations sampleEnv (sampleServer "meta" "+917858062571") bothDelivered
      emptyDb sampleRequest).trace
      = [Event.lookup (JsNum.fin 12) "2025-06-01T19:00"]
        ++ Event.post Wire.metaText "917858062571"
            "New reservation: Table 12 for Asha at 2025-06-01T19:00. Guests: 4, Phone: 9876543210"
        :: [Event.post Wire.metaText "919876543210"
            ("Hi Asha, your reservation is confirmed at RAHMAN Restaurant. Table 12, "
              ++ "2025-06-01T19:00, Guests: 4. Reply HELP for support."),
          Event.insert samplePayload, Event.inserted 1] := by
    decide
  rcases h _ _ _ htr rfl with ⟨x, hx, hins⟩
  rw [List.mem_singleton] at hx
  rw [hx] at hins
  cases hins

/-- C8, amended: in every run of the booking handler each provider request comes after the
conflict lookup and before the insert statement of the reservation, and no insert comes
before it: notifications are attempted between the lookup and the insert. -/
theorem sends_between_lookup_and_insert (env : Env) (srv : Server) (net : NetOutcomes)
    (db : Db) (req : Request) :
    SendsBetweenLookupAndInsert (postReservations env srv net db req).trace := by
  cases hl : lookupStage env db req with
  | mk flow tr =>
    have hno := lookupStage_trace env db req
    rw [hl] at hno
    cases flow with
    | respond r =>
      rw [postReservations_of_respond env srv net db req r tr hl]
      exact sendsBetween_of_no_post tr hno
    | throw e =>
      rw [postReservations_of_throw env srv net db req e tr hl]
      exact sendsBetween_of_no_post tr hno
    | next payload =>
      rw [postReservations_of_next env srv net db req payload tr hl]
      rcases lookupStage_next env db req payload tr hl with ⟨-, -, -, htr⟩
      rcases completeStage_trace env srv net db req payload with ⟨rest, hc, hrest⟩
      dsimp only
      rw [hc, htr]
      exact sendsBetween_of_shape _ _ _ rest rfl
        (notifyStage_trace env srv.whatsapp net payload) rfl hrest

/-- C9: the claim fails where the link of the response cannot be built. For a booking
request that passes validation, finds no reservation for its slot and whose insert succeeds,
whatever the provider does for the admin send and for the customer send: when
`encodeURIComponent` throws on the message of `getReservationWhatsAppLink`, called after the
insert, the handler answers `500` with the message `Failed to create reservation` although
the reservation is stored; when it returns, the handler answers `201` with the delivery
status of the notifications as `whatsappDelivery`. In both cases an error thrown by either
send call (`sendReservationNotification`, `sendReservationConfirmation`) is recorded in the
entry of that channel as `sent: false`, reason `send-failed`, with the message of the error
as detail. -/
theorem stored_booking_answers_500_when_link_throws (env : Env) (srv : Server) (db : Db)
    (req : Request) (payload : Payload) (tr : List Event)
    (hl : lookupStage env db req = (.next payload, tr))
    (hi : ∃ id delivery, (insertReservation env db req.auth payload delivery).1 = .ok id) :
    ∀ net : NetOutcomes,
      (env.encodeURIComponent (getReservationWhatsAppMessage env payload) = none →
        (postReservations env srv net db req).response
          = some ⟨500, .message "Failed to create reservation" (some Thrown.uriError)⟩
        ∧ ∃ row, (postReservations env srv net db req).db.rows = db.rows ++ [row]
          ∧ row.name = payload.name)
      ∧ ((env.encodeURIComponent (getReservationWhatsAppMessage env payload)).isSome = true →
        (postReservations env srv net db req).response.map (fun r => r.status) = some 201
        ∧ (postReservations env srv net db req).delivery
            = some (notifyStage env srv.whatsapp net payload).1)
      ∧ (∀ message, WhatsAppService.isEnabled srv.whatsapp = true →
          (WhatsAppService.sendReservationNotification env srv.whatsapp net.admin
            payload).result = .error message →
          (notifyStage env srv.whatsapp net payload).1.admin
            = .notSent "send-failed" (some message) none)
      ∧ (∀ message, WhatsAppService.isEnabled srv.whatsapp = true →
          (WhatsAppService.sendReservationConfirmation env srv.whatsapp net.customer
            payload).result = .error message →
          (notifyStage env srv.whatsapp net payload).1.customer
            = .notSent "send-failed" (some message) none) := by
  intro net
  rcases hi with ⟨id, delivery, hi⟩
  rw [insertReservation_result env db req.auth payload delivery
    (notifyStage env srv.whatsapp net payload).1] at hi
  refine ⟨?_, ?_, ?_, ?_⟩
  · intro hthrow
    have hk := (getReservationWhatsAppLink_eq_none env srv payload).2 hthrow
    have hlog : logApiFailure env req = true :=
      logApiFailure_of_buildPayload env req payload
        (lookupStage_next env db req payload tr hl).1
    rw [postReservations_of_next env srv net db req payload tr hl,
      completeStage_of_link_error env srv net db req payload id hi hk]
    refine ⟨by simp [catchBlock, hlog], ?_⟩
    exact insertReservation_stored env db req.auth payload _ id hi
  · intro hsome
    cases hk : getReservationWhatsAppLink env srv payload with
    | none =>
      rw [(getReservationWhatsAppLink_eq_none env srv payload).1 hk] at hsome
      cases hsome
    | some link =>
      refine ⟨?_, ?_⟩
      · rw [postReservations_of_next env srv net db req payload tr hl,
          completeStage_of_ok env srv net db req payload id link hi hk]
        rfl
      · rw [delivery_of_next env srv net db req payload tr hl, hi, hk]
  · intro message hen hthrow
    unfold notifyStage
    rw [if_pos hen]
    simp only [recoverSend, hthrow]
  · intro message hen hthrow
    unfold notifyStage
    rw [if_pos hen]
    simp only [recoverSend, hthrow]

/-- Witness of C9: the scenario request with a name that is an unpaired surrogate, the
provider delivering both notifications: the row is stored and the answer is `500`; and the
scenario request itself, the provider failing both sends: the answer is `201`. -/
theorem stored_booking_answers_500_when_link_throws_witness :
    ((postReservations surrogateEnv (sampleServer "meta" "+917858062571") bothDelivered
        emptyDb surrogateRequest).response
      = some ⟨500, .message "Failed to create reservation" (some Thrown.uriError)⟩
    ∧ ∃ row, (postReservations surrogateEnv (sampleServer "meta" "+917858062571")
        bothDelivered emptyDb surrogateRequest).db.rows = emptyDb.rows ++ [row]
      ∧ row.name = surrogatePayload.name)
    ∧ (postReservations sampleEnv (sampleServer "meta" "+917858062571")
        ⟨.throws "WhatsApp API error (500)", .throws "fetch failed"⟩ emptyDb
        sampleRequest).response.map (fun r => r.status) = some 201 :=
  ⟨(stored_booking_answers_500_when_link_throws surrogateEnv
      (sampleServer "meta" "+917858062571") emptyDb surrogateRequest surrogatePayload
      [Event.lookup (JsNum.fin 12) "2025-06-01T19:00"] (by decide)
      ⟨1, ⟨.notSent "not-attempted" none none, .notSent "not-attempted" none none⟩, by rfl⟩
      bothDelivered).1 (by decide),
    ((stored_booking_answers_500_when_link_throws sampleEnv
      (sampleServer "meta" "+917858062571") emptyDb sampleRequest samplePayload
      [Event.lookup (JsNum.fin 12) "2025-06-01T19:00"] (by decide)
      ⟨1, ⟨.notSent "not-attempted" none none, .notSent "not-attempted" none none⟩, by rfl⟩
      ⟨.throws "WhatsApp API error (500)", .throws "fetch failed"⟩).2.1 (by decide)).1⟩

/-- C10: two runs of the booking handler on the same request, configuration and store that
differ only in what the provider does for the admin send have the same customer delivery
status, two runs that differ only in what it does for the customer send have the same admin
delivery status, and every run answered `201` carries both entries in `whatsappDelivery`. -/
theorem notification_independence (env : Env) (srv : Server) (db : Db) (req : Request) :
    (∀ a b c : NetResult,
      (postReservations env srv ⟨a, c⟩ db req).delivery.map (fun d => d.customer)
        = (postReservations env srv ⟨b, c⟩ db req).delivery.map (fun d => d.customer))
    ∧ (∀ a c d : NetResult,
      (postReservations env srv ⟨a, c⟩ db req).delivery.map (fun s => s.admin)
        = (postReservations env srv ⟨a, d⟩ db req).delivery.map (fun s => s.admin))
    ∧ (∀ net : NetOutcomes,
      (postReservations env srv net db req).response.map (fun r => r.status) = some 201 →
      ∃ admin customer, (postReservations env srv net db req).delivery
        = some ⟨admin, customer⟩) := by
  refine ⟨?_, ?_, ?_⟩
  · intro a b c
    by_cases h : ∃ payload tr, lookupStage env db req = (.next payload, tr)
    · rcases h with ⟨payload, tr, hl⟩
      rw [delivery_of_next env srv ⟨a, c⟩ db req payload tr hl,
        delivery_of_next env srv ⟨b, c⟩ db req payload tr hl,
        insertReservation_result env db req.auth payload
          (notifyStage env srv.whatsapp ⟨a, c⟩ payload).1
          (notifyStage env srv.whatsapp ⟨b, c⟩ payload).1]
      cases (insertReservation env db req.auth payload
          (notifyStage env srv.whatsapp ⟨b, c⟩ payload).1).1 with
      | error e => rfl
      | ok id =>
        cases getReservationWhatsAppLink env srv payload with
        | none => rfl
        | some link =>
          exact congrArg some (notifyStage_customer env srv.whatsapp a b c payload)
    · have hn : ∀ payload tr, lookupStage env db req ≠ (.next payload, tr) :=
        fun payload tr hl => h ⟨payload, tr, hl⟩
      rw [delivery_of_not_next env srv ⟨a, c⟩ db req hn,
        delivery_of_not_next env srv ⟨b, c⟩ db req hn]
  · intro a c d
    by_cases h : ∃ payload tr, lookupStage env db req = (.next payload, tr)
    · rcases h with ⟨payload, tr, hl⟩
      rw [delivery_of_next env srv ⟨a, c⟩ db req payload tr hl,
        delivery_of_next env srv ⟨a, d⟩ db req payload tr hl,
        insertReservation_result env db req.auth payload
          (notifyStage env srv.whatsapp ⟨a, c⟩ payload).1
          (notifyStage env srv.whatsapp ⟨a, d⟩ payload).1]
      cases (insertReservation env db req.auth payload
          (notifyStage env srv.whatsapp ⟨a, d⟩ payload).1).1 with
      | error e => rfl
      | ok id =>
        cases getReservationWhatsAppLink env srv payload with
        | none => rfl
        | some link =>
          exact congrArg some (notifyStage_admin env srv.whatsapp a c d payload)
    · have hn : ∀ payload tr, lookupStage env db req ≠ (.next payload, tr) :=
        fun payload tr hl => h ⟨payload, tr, hl⟩
      rw [delivery_of_not_next env srv ⟨a, c⟩ db req hn,
        delivery_of_not_next env srv ⟨a, d⟩ db req hn]
  · intro net h
    rcases postReservations_created env srv net db req h with
      ⟨payload, tr, id, hl, hi, link, hk⟩
    rw [delivery_of_next env srv net db req payload tr hl, hi, hk]
    exact ⟨_, _, rfl⟩

/-- C11, as stated, fails: with the provider disabled the admin status of the scenario
booking is `sent: false` with reason `not-attempted`, not `missing-admin-number`. -/
theorem disabled_provider_not_attempted :
    (postReservations sampleEnv
        ⟨createWhatsAppService sampleEnv (sampleConfig "none" "7858062571"), "7858062571"⟩
        bothDelivered emptyDb sampleRequest).delivery.map (fun d => d.admin)
      = some (.notSent "not-attempted" none none) := by
  decide

/-- C11, amended: for a service built by the constructor, the admin delivery status of a
booking is the result of a send attempt exactly when a provider is enabled and an admin
number is configured (one provider request is made and the status is its outcome); with a
provider enabled and no admin number it is `missing-admin-number` and no request is made;
with the provider disabled both statuses are `not-attempted` and no request is made. -/
theorem admin_status_cases (env : Env) (config cfg : Config) (net : NetOutcomes)
    (payload : Payload) (hcfg : cfg = createWhatsAppService env config) :
    (WhatsAppService.isEnabled cfg = false →
      notifyStage env cfg net payload
        = (⟨.notSent "not-attempted" none none, .notSent "not-attempted" none none⟩, []))
    ∧ (WhatsAppService.isEnabled cfg = true → cfg.adminNumber = "" →
        (notifyStage env cfg net payload).1.admin = .notSent "missing-admin-number" none none
        ∧ (WhatsAppService.sendReservationNotification env cfg net.admin payload).trace = [])
    ∧ (WhatsAppService.isEnabled cfg = true → cfg.adminNumber ≠ "" →
        (∃ wire recipient,
          (WhatsAppService.sendReservationNotification env cfg net.admin payload).trace
            = [Event.post wire recipient (buildReservationText env payload)])
        ∧ (notifyStage env cfg net payload).1.admin
            = match net.admin with
              | .ok messageId =>
                .sent cfg.provider
                  (normalizePhoneNumber cfg.adminNumber cfg.defaultCountryCode) messageId
              | .throws message => .notSent "send-failed" (some message) none) := by
  refine ⟨?_, ?_, ?_⟩
  · intro hen
    simp [notifyStage, hen]
  · intro hen hadmin
    simp [notifyStage, hen, WhatsAppService.sendReservationNotification, hadmin, recoverSend]
  · intro hen hadmin
    have hnorm : normalizePhoneNumber cfg.adminNumber cfg.defaultCountryCode ≠ "" := by
      have hadmin' := hadmin
      rw [hcfg] at hadmin' ⊢
      exact normalizePhoneNumber_again_ne config.adminNumber "91" _ hadmin'
    have hen' := hen
    unfold WhatsAppService.isEnabled at hen'
    by_cases hm : cfg.provider = "meta"
    · cases hnet : net.admin <;>
        simp [notifyStage, hen, WhatsAppService.sendReservationNotification, hadmin,
          WhatsAppService.sendText, hnorm, hm, recoverSend, hnet]
    · have ht : cfg.provider = "twilio" := by simpa [hm] using hen'
      cases hnet : net.admin <;>
        simp [notifyStage, hen, WhatsAppService.sendReservationNotification, hadmin,
          WhatsAppService.sendText, hnorm, hm, recoverSend, hnet, ht]

/-- Witness of C11, amended: the cloud provider with the default admin number. -/
theorem admin_status_cases_witness :
    (notifyStage sampleEnv (createWhatsAppService sampleEnv (sampleConfig "meta" "7858062571"))
        bothDelivered samplePayload).1.admin
      = .sent "meta" "+917858062571" "wamid.1" :=
  ((admin_status_cases sampleEnv (sampleConfig "meta" "7858062571") _ bothDelivered
    samplePayload rfl).2.2 (by decide) (by decide)).2.trans (by decide)

/-- C12: `sendReservationConfirmation` returns `customer-not-opted-in` when `whatsappOptIn` is
false, whatever the phone, and `invalid-customer-phone` when the customer opted in and the
phone normalizes to `''`, in both cases without a provider request; a provider request is
made only if `whatsappOptIn` is true and the phone normalizes to a non-empty number. -/
theorem confirmation_gate (env : Env) (cfg : Config) (net : NetResult) (reservation : Payload) :
    (reservation.whatsappOptIn = false →
      WhatsAppService.sendReservationConfirmation env cfg net reservation
        = ⟨.ok (.notSent "customer-not-opted-in" none none), []⟩)
    ∧ (reservation.whatsappOptIn = true →
        normalizePhoneNumber reservation.phone cfg.defaultCountryCode = "" →
        WhatsAppService.sendReservationConfirmation env cfg net reservation
          = ⟨.ok (.notSent "invalid-customer-phone" none none), []⟩)
    ∧ ((WhatsAppService.sendReservationConfirmation env cfg net reservation).trace ≠ [] →
        reservation.whatsappOptIn = true
        ∧ normalizePhoneNumber reservation.phone cfg.defaultCountryCode ≠ "") := by
  refine ⟨?_, ?_, ?_⟩
  · intro h
    simp [WhatsAppService.sendReservationConfirmation, h]
  · intro h hn
    simp [WhatsAppService.sendReservationConfirmation, h, hn]
  · intro htr
    by_cases h : reservation.whatsappOptIn = true
    · refine ⟨h, ?_⟩
      intro hn
      apply htr
      simp [WhatsAppService.sendReservationConfirmation, h, hn]
    · exfalso
      apply htr
      simp [WhatsAppService.sendReservationConfirmation, h]

/-- Witness of C12: the scenario payload without opt-in, and with a phone without digits. -/
theorem confirmation_gate_witness :
    WhatsAppService.sendReservationConfirmation sampleEnv (sampleConfig "meta" "+917858062571")
        (.ok "wamid.2") { samplePayload with whatsappOptIn := false }
      = ⟨.ok (.notSent "customer-not-opted-in" none none), []⟩
    ∧ WhatsAppService.sendReservationConfirmation sampleEnv
        (sampleConfig "meta" "+917858062571") (.ok "wamid.2")
        { samplePayload with phone := "n/a" }
      = ⟨.ok (.notSent "invalid-customer-phone" none none), []⟩ :=
  ⟨(confirmation_gate sampleEnv _ _ { samplePayload with whatsappOptIn := false }).1 rfl,
    (confirmation_gate sampleEnv (sampleConfig "meta" "+917858062571") _
      { samplePayload with phone := "n/a" }).2.1 rfl (by decide)⟩

/-- C13, as stated, fails: with the cloud provider and a template name configured, when the
templated confirmation of the scenario payload fails, the only provider request is the
templated one; no free-text send follows. -/
theorem template_failure_no_fallback :
    (WhatsAppService.sendReservationConfirmation sampleEnv templateConfig
        (.throws "WhatsApp API error (400)") samplePayload).trace
      = [Event.post Wire.metaTemplate "919876543210"
          "reservation_confirmed|Asha|12|2025-06-01T19:00|4"]
    ∧ (WhatsAppService.sendReservationConfirmation sampleEnv templateConfig
        (.throws "WhatsApp API error (400)") samplePayload).trace.any Event.isTextPost
      = false := by
  decide

/-- C13, amended: when the provider is the cloud API and a reservation template name is
configured, and the templated confirmation send throws, `sendReservationConfirmation` makes
no free-text send and no retry: the templated request is its only provider request, and it
returns `sent: false` with reason `template-send-failed` and the message of the error as
detail. -/
theorem template_failure_is_final (env : Env) (cfg : Config) (message : String)
    (reservation : Payload)
    (hmeta : cfg.provider = "meta") (hname : cfg.reservationTemplateName ≠ "")
    (hopt : reservation.whatsappOptIn = true)
    (hphone : normalizePhoneNumber reservation.phone cfg.defaultCountryCode ≠ "") :
    (WhatsAppService.sendReservationConfirmation env cfg (.throws message) reservation).result
      = .ok (.notSent "template-send-failed" (some message) none)
    ∧ ∃ recipient content,
      (WhatsAppService.sendReservationConfirmation env cfg (.throws message)
        reservation).trace = [Event.post Wire.metaTemplate recipient content] := by
  have hagain := normalizePhoneNumber_again_ne reservation.phone cfg.defaultCountryCode
    cfg.defaultCountryCode hphone
  constructor
  · simp [WhatsAppService.sendReservationConfirmation, hopt, hphone, hmeta, hname,
      WhatsAppService.sendTemplate, hagain]
  · simp [WhatsAppService.sendReservationConfirmation, hopt, hphone, hmeta, hname,
      WhatsAppService.sendTemplate, hagain]

/-- Witness of C13, amended: the scenario payload with a template configured. -/
theorem template_failure_is_final_witness :
    (WhatsAppService.sendReservationConfirmation sampleEnv templateConfig
        (.throws "WhatsApp API error (400)") samplePayload).result
      = .ok (.notSent "template-send-failed" (some "WhatsApp API error (400)") none) :=
  (template_failure_is_final sampleEnv templateConfig "WhatsApp API error (400)" samplePayload
    rfl (by decide) rfl (by decide)).1

/-- C14, as stated, fails: with a provider enabled and no admin number, the admin entry of
the scenario booking is `sent: false` with reason `missing-admin-number`, which is not one of
the seven listed reasons. -/
theorem missing_admin_number_not_listed :
    (postReservations sampleEnv (sampleServer "meta" "") bothDelivered emptyDb
        sampleRequest).delivery.map (fun d => d.admin)
      = some (.notSent "missing-admin-number" none none)
    ∧ "missing-admin-number" ∉ listedReasons := by
  decide

/-- C14, amended: for every booking outcome, each of the admin and customer entries of the
delivery status has the `sent: true` shape or the `sent: false` shape with no other field
than reason and detail, the reason being one of the seven listed reasons or
`missing-admin-number`. -/
theorem delivery_entries_have_shape (env : Env) (srv : Server) (net : NetOutcomes) (db : Db)
    (req : Request) (delivery : NotificationStatus)
    (h : (postReservations env srv net db req).delivery = some delivery) :
    delivery.admin.HasShape knownReasons ∧ delivery.customer.HasShape knownReasons := by
  by_cases hn : ∃ payload tr, lookupStage env db req = (.next payload, tr)
  · rcases hn with ⟨payload, tr, hl⟩
    rw [delivery_of_next env srv net db req payload tr hl] at h
    split at h
    · cases h
      exact notifyStage_shape env srv.whatsapp net payload
    · cases h
  · rw [delivery_of_not_next env srv net db req
      (fun payload tr hl => hn ⟨payload, tr, hl⟩)] at h
    cases h

/-- Witness of C14, amended: the scenario booking with no admin number configured. -/
theorem delivery_entries_have_shape_witness :
    (DeliveryStatus.notSent "missing-admin-number" none none).HasShape knownReasons
    ∧ (DeliveryStatus.sent "meta" "+919876543210" "wamid.2").HasShape knownReasons :=
  delivery_entries_have_shape sampleEnv (sampleServer "meta" "") bothDelivered emptyDb
    sampleRequest ⟨.notSent "missing-admin-number" none none,
      .sent "meta" "+919876543210" "wamid.2"⟩ (by decide)

/-- C15: `normalizePhoneNumber` is idempotent: for every input string and every country code
made of digits only, normalizing the result again with the same country code gives the
result back. -/
theorem normalizePhoneNumber_idempotent (x cc : String) (hcc : DigitsOnly cc) :
    normalizePhoneNumber (normalizePhoneNumber x cc) cc = normalizePhoneNumber x cc := by
  rcases normalizePhoneNumber_cases x cc with h0 | h1 | h2
  · rw [h0, normalizePhoneNumber_empty]
  · rw [h1, normalizePhoneNumber_plus,
      stripNonDigits_of_digits _ (digitsOnly_stripNonDigits x)]
  · rw [h2, normalizePhoneNumber_plus,
      stripNonDigits_of_digits _ (digitsOnly_append _ _ hcc (digitsOnly_stripNonDigits x))]

/-- Witness of C15: a ten-digit local number with separators and the country code `91`. -/
theorem normalizePhoneNumber_idempotent_witness :
    normalizePhoneNumber (normalizePhoneNumber " 98765-43210 " "91") "91"
      = normalizePhoneNumber " 98765-43210 " "91"
    ∧ normalizePhoneNumber " 98765-43210 " "91" = "+919876543210" :=
  ⟨normalizePhoneNumber_idempotent " 98765-43210 " "91" (by unfold DigitsOnly; decide), by decide⟩

/-- C16: `normalizePhoneNumber` agrees with the reference definition of the specification on
every input the reference covers (empty after trimming, leading `+`, exactly ten digits, any
other input with a digit); on the inputs it does not cover (no digit and no leading `+`)
the function returns `''`. -/
theorem normalize_matches_reference (raw cc : String) :
    normalizeReference raw cc = some (normalizePhoneNumber raw cc)
    ∨ (normalizeReference raw cc = none ∧ digitCharacters (jsTrim raw) = ""
        ∧ normalizePhoneNumber raw cc = "") := by
  unfold normalizeReference normalizePhoneNumber
  simp only [digitCharacters_eq, length_zero_iff]
  by_cases h0 : jsTrim raw = ""
  · simp [h0]
  · simp only [h0, if_false, front_plus_iff _ h0]
    by_cases hp : (jsTrim raw).data.head? = some '+'
    · simp [hp]
    · simp only [hp, if_false]
      by_cases hd : stripNonDigits (jsTrim raw) = ""
      · right
        have hlen : (stripNonDigits (jsTrim raw)).length = 0 := by rw [hd]; rfl
        simp [hd, hlen]
      · have hlen : 1 ≤ (stripNonDigits (jsTrim raw)).length := by
          rcases Nat.eq_zero_or_pos (stripNonDigits (jsTrim raw)).length with h | h
          · exact absurd ((length_zero_iff _).1 h) hd
          · exact h
        left
        by_cases h10 : (stripNonDigits (jsTrim raw)).length = 10
        · simp [hd, h10]
        · simp [hd, h10, hlen]

/-- C17: `sendText` normalizes the recipient first: when normalization yields `''` it returns
`missing-recipient` whatever the provider, and otherwise, when the provider is neither `meta`
nor `twilio`, it returns `sent: false` with reason `provider-disabled`; in both cases no
provider request is made. -/
theorem sendText_gates (cfg : Config) (net : NetResult) (recipient text : String) :
    (normalizePhoneNumber recipient cfg.defaultCountryCode = "" →
      WhatsAppService.sendText cfg net recipient text
        = ⟨.ok (.notSent "missing-recipient" none none), []⟩)
    ∧ (normalizePhoneNumber recipient cfg.defaultCountryCode ≠ "" →
        cfg.provider ≠ "meta" → cfg.provider ≠ "twilio" →
        WhatsAppService.sendText cfg net recipient text
          = ⟨.ok (.notSent "provider-disabled" none
              (some (normalizePhoneNumber recipient cfg.defaultCountryCode))), []⟩) := by
  refine ⟨?_, ?_⟩
  · intro hn
    simp [WhatsAppService.sendText, hn]
  · intro hn hm ht
    simp [WhatsAppService.sendText, hn, WhatsAppService.isEnabled, hm, ht]

/-- Witness of C17: no provider configured, a recipient without digits and a valid one. -/
theorem sendText_gates_witness :
    WhatsAppService.sendText (sampleConfig "none" "") (.ok "wamid.1") "n/a" "hello"
      = ⟨.ok (.notSent "missing-recipient" none none), []⟩
    ∧ WhatsAppService.sendText (sampleConfig "none" "") (.ok "wamid.1") "9876543210" "hello"
      = ⟨.ok (.notSent "provider-disabled" none (some "+919876543210")), []⟩ :=
  ⟨(sendText_gates (sampleConfig "none" "") _ "n/a" "hello").1 (by decide),
    ((sendText_gates (sampleConfig "none" "") (.ok "wamid.1") "9876543210" "hello").2
      (by decide) (by decide) (by decide)).trans (by
        have h : normalizePhoneNumber "9876543210" (sampleConfig "none" "").defaultCountryCode
            = "+919876543210" := by decide
        rw [h])⟩

/-- C18, as stated, fails: with a configured secret, the header `sha256= ` followed by the
digest of the body (a space after the prefix) is accepted, although the header without its
prefix is not equal to the digest. -/
theorem padded_signature_accepted :
    WhatsAppService.verifyMetaSignature sampleCrypto signedConfig (some "body")
        (some ("sha256= " ++ sampleCrypto.hmacSha256Hex "secret" "body")) = true
    ∧ stripSha256Prefix ("sha256= " ++ sampleCrypto.hmacSha256Hex "secret" "body")
        ≠ sampleCrypto.hmacSha256Hex "secret" "body" := by
  decide

/-- C18, amended: `verifyMetaSignature` returns true if and only if either the provider is
not the cloud API or no app secret is set, or the body and the header are both present and
non-empty and the header, after removal of its `sha256=` prefix and of surrounding white
space, equals the hexadecimal HMAC-SHA256 of the body under the app secret. -/
theorem verifyMetaSignature_iff (crypto : Crypto) (cfg : Config) (rawBody signatureHeader : Option String) :
    WhatsAppService.verifyMetaSignature crypto cfg rawBody signatureHeader = true
      ↔ (cfg.provider ≠ "meta" ∨ cfg.metaAppSecret = "")
        ∨ ∃ body header, rawBody = some body ∧ signatureHeader = some header
            ∧ body ≠ "" ∧ header ≠ ""
            ∧ jsTrim (stripSha256Prefix header) = crypto.hmacSha256Hex cfg.metaAppSecret body := by
  unfold WhatsAppService.verifyMetaSignature
  by_cases hs : WhatsAppService.shouldVerifyMetaSignature cfg = false
  · have := (shouldVerify_false_iff cfg).1 hs
    simp [hs, this]
  · have hn : ¬ (cfg.provider ≠ "meta" ∨ cfg.metaAppSecret = "") :=
      fun h => hs ((shouldVerify_false_iff cfg).2 h)
    have hs' : WhatsAppService.shouldVerifyMetaSignature cfg = true := by
      simpa using hs
    simp only [hs', Bool.not_true, Bool.false_eq_true, if_false, hn, false_or]
    cases rawBody with
    | none => simp
    | some body =>
      cases signatureHeader with
      | none => simp
      | some header =>
        by_cases hb : body = ""
        · simp [hb]
        · by_cases hh : header = ""
          · simp [hh]
          · simp only [hb, hh, or_self, if_false, Option.some.injEq, exists_and_left,
              exists_eq_left', ne_eq, not_false_eq_true, true_and]
            constructor
            · intro h
              split at h
              · cases h
              · exact (of_decide_eq_true h).symm
            · intro h
              rw [← h]
              simp

/-- C20: `detectIntent` is the classifier of the specification applied to the lower-cased
text: the first intent in the fixed order one of whose keywords occurs as a substring, and
`fallback` when none occurs; letter case is ignored, and both sample sentences classify as
`reservation`. -/
theorem detectIntent_first_match :
    (∀ (env : Env) (text : String),
      WhatsAppService.detectIntent env text = classifyReference (env.toLowerCase text))
    ∧ WhatsAppService.detectIntent sampleEnv "can you confirm my table reservation"
      = "reservation"
    ∧ WhatsAppService.detectIntent sampleEnv "check my reservation status" = "reservation"
    ∧ WhatsAppService.detectIntent sampleEnv "Check My RESERVATION Status" = "reservation"
    ∧ WhatsAppService.detectIntent sampleEnv "thanks, bye" = "fallback" := by
  refine ⟨?_, by decide, by decide, by decide, by decide⟩
  intro env text
  unfold WhatsAppService.detectIntent classifyReference intentKeywords
  simp only [List.find?, regexTest_eq]
  split <;> [skip; split <;> [skip; split <;> [skip; split <;> [skip; split]]]] <;> simp_all

/-- C21, as stated, fails: `detectIntent` does not classify `hi, what's on the menu` as
`greeting`. -/
theorem greeting_does_not_win :
    WhatsAppService.detectIntent sampleEnv "hi, what\x27s on the menu" ≠ "greeting" := by
  decide

/-- C21, amended: `detectIntent` classifies `hi, what's on the menu` as `menu`: the intent
that comes first in the fixed order wins, whatever the position of the keywords in the
message; every text with a menu keyword and no reservation keyword is classified `menu`,
also when a greeting keyword occurs in it. -/
theorem menu_wins_over_greeting :
    WhatsAppService.detectIntent sampleEnv "hi, what\x27s on the menu" = "menu"
    ∧ ∀ (env : Env) (text : String),
        regexTest ["book", "reserve", "reservation", "table"] (env.toLowerCase text) = false →
        regexTest ["menu", "dish", "food", "item", "price"] (env.toLowerCase text) = true →
        WhatsAppService.detectIntent env text = "menu" := by
  refine ⟨by decide, ?_⟩
  intro env text hres hmenu
  simp [WhatsAppService.detectIntent, hres, hmenu]

/-- Witness of C21, amended: a greeting followed by a question about a dish. -/
theorem menu_wins_over_greeting_witness :
    WhatsAppService.detectIntent sampleEnv "Hello, is the fish dish spicy?" = "menu" :=
  menu_wins_over_greeting.2 sampleEnv _ (by decide) (by decide)

/-- C22: when the generative backend is disabled (no API key), or its response is not `ok`,
or its call fails, or its reply is empty after trimming, `buildBotReply` returns the fixed
reply of `detectIntent(text)` and records that intent in the session of the sender; for
`book a table for 2` the recorded intent is `reservation` and the reply is the
booking-guidance text. -/
theorem buildBotReply_default (env : Env) (cfg : Config) (ai : AiOutcome) (clock : Clock)
    (sessions : Sessions) (sender text : String)
    (h : cfg.openAiApiKey = "" ∨ ai = .notOk ∨ ai = .failed
      ∨ ∃ content, ai = .replied content ∧ jsTrim content = "") :
    ((WhatsAppService.buildBotReply env cfg ai clock sessions sender text).1
      = WhatsAppService.getDefaultBotReply (WhatsAppService.detectIntent env text)
    ∧ ((WhatsAppService.buildBotReply env cfg ai clock sessions sender text).2 sender).map
        (fun s => s.intent) = some (WhatsAppService.detectIntent env text))
    ∧ WhatsAppService.detectIntent sampleEnv "book a table for 2" = "reservation"
    ∧ WhatsAppService.getDefaultBotReply "reservation"
      = "For instant booking, use our website reservation form. Share your preferred date/time, guests, and we can guide you." := by
  have hai : WhatsAppService.maybeOpenAiReply cfg ai = "" := by
    unfold WhatsAppService.maybeOpenAiReply
    rcases h with h | h | h | ⟨content, h, hc⟩
    · simp [h]
    · simp [h]
    · simp [h]
    · simp [h, hc]
  refine ⟨⟨?_, ?_⟩, by decide, by decide⟩
  · simp [WhatsAppService.buildBotReply, hai]
  · cases hs : sessions sender <;>
      simp [WhatsAppService.buildBotReply, WhatsAppService.getSession, hs, Sessions.set]

/-- Witness of C22: a first message `book a table for 2` with no API key configured. -/
theorem buildBotReply_default_witness :
    (WhatsAppService.buildBotReply sampleEnv (sampleConfig "meta" "") (.replied "Sure!")
        ⟨1000, 1001⟩ Sessions.empty "+919876543210" "book a table for 2").1
      = WhatsAppService.getDefaultBotReply "reservation"
    ∧ (WhatsAppService.buildBotReply sampleEnv (sampleConfig "meta" "") (.replied "Sure!")
        ⟨1000, 1001⟩ Sessions.empty "+919876543210" "book a table for 2").2 "+919876543210"
      = some ⟨"reservation", 1000, some 1001⟩ :=
  ⟨(buildBotReply_default sampleEnv (sampleConfig "meta" "") (.replied "Sure!") ⟨1000, 1001⟩
      Sessions.empty "+919876543210" "book a table for 2" (Or.inl rfl)).1.1.trans
      (by decide),
    by decide⟩

/-- C23: whenever `verifyMetaSignature` fails, the handler of a cloud-API delivery answers
`401` and the bot is not invoked: the sessions are as before, no `sendText` call and no
provider request is made. -/
theorem invalid_signature_answers_401 (env : Env) (crypto : Crypto) (cfg : Config)
    (oracle : Nat → MessageOracle) (sessions : Sessions) (req : WebhookRequest)
    (h : WhatsAppService.verifyMetaSignature crypto cfg req.rawBody req.signature = false) :
    postWebhook env crypto cfg oracle sessions req
      = ⟨⟨401, .message "Invalid webhook signature" none⟩, sessions, [], []⟩ := by
  simp [postWebhook, h]

/-- Witness of C23: a delivery without signature header to a service with an app secret. -/
theorem invalid_signature_answers_401_witness :
    postWebhook sampleEnv sampleCrypto signedConfig quietOracle Sessions.empty
        ⟨some "body", none,
          ⟨some [⟨some [⟨some [textMessage "919876543210" "book a table for 2"]⟩]⟩]⟩⟩
      = ⟨⟨401, .message "Invalid webhook signature" none⟩, Sessions.empty, [], []⟩ :=
  invalid_signature_answers_401 _ _ _ _ _ _ (by decide)

/-- C24: for every cloud-API payload, when no send throws, `handleMetaWebhook` returns as
`processedMessages` the number of messages whose sender normalizes to a non-empty number and
whose extracted text is non-empty; for these messages, in payload order, and for no other,
it calls the bot (the sessions are those left by the bot calls for these messages) and
calls `sendText` once with the sender and the reply, which makes one provider request per
reply when a provider is enabled. -/
theorem handleMetaWebhook_processes (env : Env) (cfg : Config) (oracle : Nat → MessageOracle)
    (sessions : Sessions) (payload : MetaPayload)
    (hnet : ∀ i, ∃ messageId, (oracle i).net = .ok messageId) :
    (WhatsAppService.handleMetaWebhook env cfg oracle sessions payload).result
      = .ok (payload.messages.filter processable).length
    ∧ (WhatsAppService.handleMetaWebhook env cfg oracle sessions payload).replies
      = expectedReplies env cfg oracle 0 payload.messages
    ∧ (WhatsAppService.handleMetaWebhook env cfg oracle sessions payload).replies.map Prod.fst
      = (payload.messages.filter processable).map messageSender
    ∧ (WhatsAppService.handleMetaWebhook env cfg oracle sessions payload).sessions
      = expectedSessions env cfg oracle 0 payload.messages sessions
    ∧ (WhatsAppService.handleMetaWebhook env cfg oracle sessions payload).trace
      = if WhatsAppService.isEnabled cfg then
          (WhatsAppService.handleMetaWebhook env cfg oracle sessions payload).replies.map
            (replyRequest cfg)
        else [] := by
  unfold WhatsAppService.handleMetaWebhook
  rcases processMessages_spec env cfg oracle hnet payload.messages 0 sessions
    with ⟨h1, h2, h3, h4⟩
  refine ⟨?_, h2, ?_, h3, h4⟩
  · rw [h1, ← processableFrom_snd 0 payload.messages, List.length_map]
  · rw [h2, ← processableFrom_snd 0 payload.messages]
    unfold expectedReplies
    simp [List.map_map, Function.comp_def]

/-- Witness of C24: a delivery with a text message, a missing message and a message without
sender. -/
theorem handleMetaWebhook_processes_witness :
    (WhatsAppService.handleMetaWebhook sampleEnv (sampleConfig "meta" "") quietOracle
        Sessions.empty
        ⟨some [⟨some [⟨some [textMessage "919876543210" "book a table for 2", none,
          textMessage "" "menu"]⟩]⟩]⟩).replies
      = [("+919876543210", WhatsAppService.getDefaultBotReply "reservation")] :=
  (handleMetaWebhook_processes sampleEnv (sampleConfig "meta" "") quietOracle Sessions.empty _
    (fun _ => ⟨"wamid.reply", rfl⟩)).2.1.trans (by decide)

/-- C25: on a provider other than the cloud API, `sendTemplate` to a recipient that
normalizes to a non-empty number returns `sent: false` with the reason
`template-only-supported-on-meta` and makes no provider request; a recipient that normalizes
to `''` yields `missing-recipient` first, whatever the provider. -/
theorem sendTemplate_gates (cfg : Config) (net : NetResult) (recipient templateName : String)
    (bodyVariables : List String) :
    (normalizePhoneNumber recipient cfg.defaultCountryCode = "" →
      WhatsAppService.sendTemplate cfg net recipient templateName bodyVariables
        = ⟨.ok (.notSent "missing-recipient" none none), []⟩)
    ∧ (normalizePhoneNumber recipient cfg.defaultCountryCode ≠ "" → cfg.provider ≠ "meta" →
      WhatsAppService.sendTemplate cfg net recipient templateName bodyVariables
        = ⟨.ok (.notSent "template-only-supported-on-meta" none none), []⟩) := by
  refine ⟨?_, ?_⟩
  · intro hn
    simp [WhatsAppService.sendTemplate, hn]
  · intro hn hm
    simp [WhatsAppService.sendTemplate, hn, hm]

/-- Witness of C25: the bridge provider, a recipient without digits and a valid one. -/
theorem sendTemplate_gates_witness :
    WhatsAppService.sendTemplate (sampleConfig "twilio" "") (.ok "wamid.1") "n/a"
        "reservation_confirmed" ["Asha"]
      = ⟨.ok (.notSent "missing-recipient" none none), []⟩
    ∧ WhatsAppService.sendTemplate (sampleConfig "twilio" "") (.ok "wamid.1") "9876543210"
        "reservation_confirmed" ["Asha"]
      = ⟨.ok (.notSent "template-only-supported-on-meta" none none), []⟩ :=
  ⟨(sendTemplate_gates (sampleConfig "twilio" "") _ "n/a" _ _).1 (by decide),
    (sendTemplate_gates (sampleConfig "twilio" "") _ "9876543210" _ _).2 (by decide)
      (by decide)⟩

/-- C26: the verification handshake answers `200` if and only if `hub.mode` is `subscribe` and
`hub.verify_token` is the configured verify token, the body then being `hub.challenge` as a
string; every other request is answered `403`. -/
theorem handshake_iff (verifyToken : String) (mode token challenge : QueryValue) :
    ((getWebhook verifyToken mode token challenge).status = 200
      ↔ mode = .text "subscribe" ∧ token = .text verifyToken)
    ∧ (mode = .text "subscribe" ∧ token = .text verifyToken →
      getWebhook verifyToken mode token challenge = ⟨200, .text challenge.orEmpty⟩)
    ∧ (¬ (mode = .text "subscribe" ∧ token = .text verifyToken) →
      getWebhook verifyToken mode token challenge
        = ⟨403, .message "Webhook verification failed" none⟩)
    ∧ ∀ s, (QueryValue.text s).orEmpty = s := by
  refine ⟨?_, ?_, ?_, fun _ => rfl⟩
  · by_cases h : mode = .text "subscribe" ∧ token = .text verifyToken
    · simp [getWebhook, h]
    · simp [getWebhook, h]
  · intro h
    simp [getWebhook, h]
  · intro h
    simp [getWebhook, h]

/-- Witness of C26: a handshake with the right token, and one with a wrong token. -/
theorem handshake_iff_witness :
    getWebhook "s3cret" (.text "subscribe") (.text "s3cret") (.text "1158201444")
      = ⟨200, .text "1158201444"⟩
    ∧ getWebhook "s3cret" (.text "subscribe") (.text "guess") (.text "1158201444")
      = ⟨403, .message "Webhook verification failed" none⟩ :=
  ⟨(handshake_iff "s3cret" _ _ (.text "1158201444")).2.1 ⟨rfl, rfl⟩,
    (handshake_iff "s3cret" (.text "subscribe") (.text "guess") _).2.2.1 (by decide)⟩

/-- C27: every `500` response of the booking handler comes from its `catch` block and
carries, beside the message `Failed to create reservation`, a `detail` with the text of the
error; the handler does not read the production flag. A booking request whose `dateTime` the
database rejects is answered so, while the final error middleware leaves `detail` out in
production. -/
theorem booking_failure_exposes_detail :
    (∀ (env : Env) (srv : Server) (net : NetOutcomes) (db : Db) (req : Request) (r : Response),
      (postReservations env srv net db req).response = some r → r.status = 500 →
      ∃ e, r = ⟨500, .message "Failed to create reservation" (some e)⟩)
    ∧ (postReservations sampleEnv (sampleServer "none" "") bothDelivered emptyDb
        ⟨{ sampleBody (JsVal.num (JsNum.fin 4)) (JsVal.num (JsNum.fin 12)) with
            dateTime := JsVal.str "not-a-date" }, none⟩).response
      = some ⟨500, .message "Failed to create reservation" (some Thrown.pgInvalidTimestamp)⟩
    ∧ errorMiddleware true false "invalid input syntax"
      = some ⟨500, .message "Internal server error" none⟩
    ∧ errorMiddleware false false "invalid input syntax"
      = some ⟨500, .message "Internal server error" (some "invalid input syntax")⟩ := by
  refine ⟨?_, by decide, by decide, by decide⟩
  intro env srv net db req r h hs
  unfold postReservations at h
  split at h
  · next payload tr hl =>
    dsimp only at h
    cases hi : (insertReservation env db req.auth payload
        (notifyStage env srv.whatsapp net payload).1).1 with
    | error e =>
      rw [completeStage_of_error env srv net db req payload e hi] at h
      exact ⟨e, catchBlock_detail env req e r h⟩
    | ok id =>
      cases hk : getReservationWhatsAppLink env srv payload with
      | none =>
        rw [completeStage_of_link_error env srv net db req payload id hi hk] at h
        exact ⟨_, catchBlock_detail env req _ r h⟩
      | some link =>
        rw [completeStage_of_ok env srv net db req payload id link hi hk] at h
        cases h
        cases hs
  · next r0 tr hl =>
    dsimp only at h
    cases h
    rcases lookupStage_respond env db req r tr hl with ⟨status, message, hr, h4 | h4⟩ <;>
      · rw [hr] at hs
        dsimp only at hs
        omega
  · next e tr hl =>
    exact ⟨e, catchBlock_detail env req e r h⟩

/-- Witness of C27: the `500` answered to a booking request with an invalid `dateTime`. -/
theorem booking_failure_exposes_detail_witness :
    ∃ e, (⟨500, .message "Failed to create reservation" (some Thrown.pgInvalidTimestamp)⟩ :
        Response)
      = ⟨500, .message "Failed to create reservation" (some e)⟩ :=
  booking_failure_exposes_detail.1 sampleEnv (sampleServer "none" "") bothDelivered emptyDb
    ⟨{ sampleBody (JsVal.num (JsNum.fin 4)) (JsVal.num (JsNum.fin 12)) with
        dateTime := JsVal.str "not-a-date" }, none⟩ _ (by decide) rfl

/-- C28: `getTextFromIncomingMessage` extracts the text by the type of the message: the
trimmed `text.body` for `text`, the trimmed `button.text` for `button`, the trimmed
`interactive.button_reply.title` or, when that is absent or empty, the trimmed
`interactive.list_reply.title` for `interactive`, and `''` for a missing message, any other
type, or a missing field. -/
theorem getText_by_type :
    getTextFromIncomingMessage none = ""
    ∧ (∀ m : IncomingMessage, m.type = some "text" →
        (∀ body, m.textBody = some body → getTextFromIncomingMessage (some m) = jsTrim body)
        ∧ (m.textBody = none → getTextFromIncomingMessage (some m) = ""))
    ∧ (∀ m : IncomingMessage, m.type = some "button" →
        (∀ text, m.buttonText = some text → getTextFromIncomingMessage (some m) = jsTrim text)
        ∧ (m.buttonText = none → getTextFromIncomingMessage (some m) = ""))
    ∧ (∀ m : IncomingMessage, m.type = some "interactive" →
        (∀ title, m.buttonReplyTitle = some title → title ≠ "" →
          getTextFromIncomingMessage (some m) = jsTrim title)
        ∧ (m.buttonReplyTitle = none ∨ m.buttonReplyTitle = some "" →
          (∀ title, m.listReplyTitle = some title →
            getTextFromIncomingMessage (some m) = jsTrim title)
          ∧ (m.listReplyTitle = none → getTextFromIncomingMessage (some m) = "")))
    ∧ (∀ m : IncomingMessage, m.type ≠ some "text" → m.type ≠ some "button" →
        m.type ≠ some "interactive" → getTextFromIncomingMessage (some m) = "") := by
  have hempty : jsTrim "" = "" := by decide
  refine ⟨rfl, ?_, ?_, ?_, ?_⟩
  · intro m ht
    constructor
    · intro body hb
      by_cases h : body = ""
      · simp [getTextFromIncomingMessage, ht, hb, textOr, h]
      · simp [getTextFromIncomingMessage, ht, hb, textOr, h]
    · intro hb
      simp [getTextFromIncomingMessage, ht, hb, textOr, hempty]
  · intro m ht
    constructor
    · intro text hb
      by_cases h : text = ""
      · simp [getTextFromIncomingMessage, ht, hb, textOr, h]
      · simp [getTextFromIncomingMessage, ht, hb, textOr, h]
    · intro hb
      simp [getTextFromIncomingMessage, ht, hb, textOr, hempty]
  · intro m ht
    constructor
    · intro title hb hne
      simp [getTextFromIncomingMessage, ht, hb, textOr, hne]
    · intro hb
      constructor
      · intro title hl
        by_cases h : title = ""
        · rcases hb with hb | hb <;>
            simp [getTextFromIncomingMessage, ht, hb, hl, textOr, h]
        · rcases hb with hb | hb <;>
            simp [getTextFromIncomingMessage, ht, hb, hl, textOr, h]
      · intro hl
        rcases hb with hb | hb <;>
          simp [getTextFromIncomingMessage, ht, hb, hl, textOr, hempty]
  · intro m h1 h2 h3
    simp [getTextFromIncomingMessage, h1, h2, h3]

/-- Witness of C28: an interactive message with an empty button title and a list title. -/
theorem getText_by_type_witness :
    getTextFromIncomingMessage
        (some ⟨some "919876543210", some "interactive", none, none, some "", some " Menu "⟩)
      = jsTrim " Menu " :=
  ((getText_by_type.2.2.2.1
      ⟨some "919876543210", some "interactive", none, none, some "", some " Menu "⟩ rfl).2
    (Or.inr rfl)).1 " Menu " rfl

/-- C29: for the inputs `+` and `+abc`, which start with `+` and have no digit,
`normalizePhoneNumber` returns `+`, a non-empty result without any digit; `sendText` takes
it for a recipient and makes a provider request with an empty recipient id. -/
theorem plus_without_digits :
    normalizePhoneNumber "+" "91" = "+"
    ∧ normalizePhoneNumber "+abc" "91" = "+"
    ∧ normalizePhoneNumber "abc" "91" = ""
    ∧ (WhatsAppService.sendText (sampleConfig "meta" "") (.ok "wamid.1") "+abc" "hello").trace
      = [Event.post Wire.metaText "" "hello"] := by
  decide

/-- C30: `buildBotReply` creates the session of the sender when it is absent and otherwise
keeps its `createdAt`; it sets the `intent` and `lastMessageAt` of that session, leaves the
session of every other sender as it was, and removes no session. -/
theorem buildBotReply_sessions (env : Env) (cfg : Config) (ai : AiOutcome) (clock : Clock)
    (sessions : Sessions) (sender text : String) :
    (sessions sender = none →
      (WhatsAppService.buildBotReply env cfg ai clock sessions sender text).2 sender
        = some ⟨WhatsAppService.detectIntent env text, clock.atCreate, some clock.atMessage⟩)
    ∧ (∀ old, sessions sender = some old →
      (WhatsAppService.buildBotReply env cfg ai clock sessions sender text).2 sender
        = some ⟨WhatsAppService.detectIntent env text, old.createdAt, some clock.atMessage⟩)
    ∧ (∀ other, other ≠ sender →
      (WhatsAppService.buildBotReply env cfg ai clock sessions sender text).2 other
        = sessions other)
    ∧ (∀ key, (sessions key).isSome = true →
      ((WhatsAppService.buildBotReply env cfg ai clock sessions sender text).2 key).isSome
        = true) := by
  refine ⟨?_, ?_, ?_, ?_⟩
  · intro h
    simp [WhatsAppService.buildBotReply, WhatsAppService.getSession, h, Sessions.set]
  · intro old h
    simp [WhatsAppService.buildBotReply, WhatsAppService.getSession, h, Sessions.set]
  · intro other hne
    cases h : sessions sender <;>
      simp [WhatsAppService.buildBotReply, WhatsAppService.getSession, h, Sessions.set, hne]
  · intro key hkey
    by_cases hk : key = sender
    · cases h : sessions sender <;>
        simp [WhatsAppService.buildBotReply, WhatsAppService.getSession, h, Sessions.set, hk]
    · cases h : sessions sender <;>
        simp [WhatsAppService.buildBotReply, WhatsAppService.getSession, h, Sessions.set, hk,
          hkey]

/-- Witness of C30: a second message of a sender whose session exists. -/
theorem buildBotReply_sessions_witness :
    (WhatsAppService.buildBotReply sampleEnv (sampleConfig "meta" "") .notOk ⟨2000, 2001⟩
        (Sessions.empty.set "+919876543210" ⟨"greeting", 1000, some 1001⟩) "+919876543210"
        "menu please").2 "+919876543210"
      = some ⟨"menu", 1000, some 2001⟩ :=
  ((buildBotReply_sessions sampleEnv (sampleConfig "meta" "") .notOk ⟨2000, 2001⟩
      (Sessions.empty.set "+919876543210" ⟨"greeting", 1000, some 1001⟩) "+919876543210"
      "menu please").2.1 ⟨"greeting", 1000, some 1001⟩ (by decide)).trans (by decide)

end Rahman
